import Mathlib

/-!
Verification development for the smb-zfs provisioning tool.

The Python sources (smb_zfs/zfs.py, smb_zfs/system.py, smb_zfs/state_manager.py,
smb_zfs/smb_zfs.py, smb_zfs/errors.py) are shallowly embedded as pure Lean
functions over an explicit world state:

  * `Sys` models the live OS/ZFS world: POSIX users and groups, group
    membership, the Samba password database, ZFS datasets, snapshots and
    quota properties.
  * `StoreData` models the JSON state file contents, `SM` the StateManager
    (in-memory data plus the persisted file copy), `MState` the whole
    SmbZfsManager world.
  * `Env` supplies the oracles for everything the tool only observes
    (mountpoints, property values, the clock, which shell commands succeed).
  * Every executed shell command / config mutation is recorded as an `Ev`
    in a trace, so ordering claims can be stated about traces.
  * Python exceptions are modelled by `PyErr`; functions that can raise
    return `Except PyErr` results together with the world reached so far
    (an escaping exception does not undo world changes).
-/

/-- Python exception values raised by the embedded code.  `smbZfsError` is an
instance of the base class `SmbZfsError` itself (this is what `System._run`
raises when a shell command fails, see system.py); the other constructors are
the subclasses from errors.py.  `keyError` is Python's builtin `KeyError`,
which is not an `SmbZfsError` at all.  The variant of errors.py defining
`ZfsCmdError`, `StateItemNotFoundError` and `MissingInput` is not in src/;
they are modelled from the spec's error taxonomy as proper subclasses of the
base error, mutually distinct, which the subclass test below reflects. -/
inductive PyErr where
  | smbZfsError (msg : String)
  | notInitializedError
  | alreadyInitializedError
  | itemExistsError (itemType name : String)
  | stateItemNotFoundError (itemType name : String)
  | invalidNameError (msg : String)
  | prerequisiteError (msg : String)
  | immutableError (msg : String)
  | missingInput (msg : String)
  | zfsCmdError (msg : String)
  | calledProcessError
  | keyError (key : String)
  deriving DecidableEq, Repr

/-- Membership of an exception value in Python class `SmbZfsError` (the base
class or any of its subclasses).  `KeyError` and `CalledProcessError` are
unrelated builtin/stdlib classes. -/
def PyErr.isSmbZfsError : PyErr → Bool
  | .keyError _ => false
  | .calledProcessError => false
  | _ => true

/-- Membership test for the handler `except (subprocess.CalledProcessError,
ZfsCmdError)` in `Zfs.move_dataset` (zfs.py line 151).  A Python `except`
clause catches exactly instances of the named classes and their subclasses:
an instance of the base class `SmbZfsError` (which is what `System._run`
raises on a failed command) is not an instance of the subclass `ZfsCmdError`
and is therefore not caught. -/
def PyErr.caughtByMoveHandler : PyErr → Bool
  | .zfsCmdError _ => true
  | .calledProcessError => true
  | _ => false

/-- Membership of an exception value in `InvalidNameError`. -/
def PyErr.isInvalidNameError : PyErr → Bool
  | .invalidNameError _ => true
  | _ => false

/-- Membership of an exception value in `ImmutableError`. -/
def PyErr.isImmutableError : PyErr → Bool
  | .immutableError _ => true
  | _ => false

/-- Observable side effects: each constructor stands for one executed shell
command (or direct config/filesystem mutation) of the Python code.  Query
commands (`zfs list`, `zfs get`, `pdbedit -L`, existence checks) mutate
nothing and are not recorded. -/
inductive Ev where
  | zfsCreate (d : String)
  | zfsSnapshot (s : String)
  | zfsSendRecv (src dst : String)
  | zfsDestroyR (d : String)
  | zfsDestroySnap (s : String)
  | zfsSetQuota (d q : String)
  | zfsRename (old new : String)
  | useradd (u : String)
  | userdel (u : String)
  | groupadd (g : String)
  | groupdel (g : String)
  | usermodAddToGroup (u g : String)
  | gpasswdRemove (u g : String)
  | chpasswd (u : String)
  | smbpasswdAdd (u : String)
  | smbpasswdEnable (u : String)
  | smbpasswdDelete (u : String)
  | smbpasswdSet (u : String)
  | chownEv (path : String)
  | chmodEv (path : String)
  | confCreateSmb
  | confCreateAvahi
  | confAddShare (n : String)
  | confRemoveShare (n : String)
  | testparm
  | reloadSamba
  deriving DecidableEq, Repr

/-- Live OS and ZFS state. `membership` holds (user, group) pairs; `datasets`
the existing ZFS filesystems (pools are their own root datasets); `quotas`
maps a dataset to the value of its quota property when one was ever set. -/
structure Sys where
  osUsers : List String
  osGroups : List String
  sambaUsers : List String
  membership : List (String × String)
  datasets : List String
  snapshots : List String
  quotas : List (String × String)
  deriving DecidableEq, Repr

/-- Read-only oracles of the embedding: mountpoints, the clock, byte counts
and guid values as returned by `zfs get` (zfs.py `_get_zfs_property` returns
the string "0" when the underlying command fails, so `guid` returning "0"
models the unset/unreadable sentinel; `usedBytes`/`availBytes` model the
already-`int()`-parsed `used`/`available` properties), the pool list from
`zpool list`, and which shell commands succeed. -/
structure Env where
  mount : String → String
  nowEpoch : Nat
  nowIso : String
  usedBytes : String → Nat
  availBytes : String → Nat
  guid : String → String
  pools : List String
  cmdOk : Ev → Bool

/-- Python-style split of a string on one separator character, structurally
recursive so that concrete instances reduce inside the kernel (for a single
separator this agrees with `String.splitOn` and with Python `str.split`). -/
def splitOnCharList (c : Char) : List Char → List (List Char)
  | [] => [[]]
  | ch :: rest =>
    let acc := splitOnCharList c rest
    if ch == c then [] :: acc
    else
      match acc with
      | h :: t => (ch :: h) :: t
      | [] => [[ch]]

/-- String version of `splitOnCharList`. -/
def splitOnChar (c : Char) (s : String) : List String :=
  (splitOnCharList c s.data).map String.mk

/-- ASCII lower-casing of one character (Python `str.lower` on the ASCII
names this tool handles). -/
def lowerChar (c : Char) : Char :=
  if 65 ≤ c.toNat ∧ c.toNat ≤ 90 then Char.ofNat (c.toNat + 32) else c

/-- ASCII `str.lower`. -/
def toLowerStr (s : String) : String :=
  String.mk (s.data.map lowerChar)

/-- Python `s.replace(" ", "")`. -/
def removeSpaces (s : String) : String :=
  String.mk (s.data.filter (fun c => !(c == ' ')))

/-- Character containment test (`"@" in item`). -/
def containsChar (s : String) (c : Char) : Bool :=
  s.data.contains c

/-- Drop of the first `n` characters of a string. -/
def strDropChars (s : String) (n : Nat) : String :=
  String.mk (s.data.drop n)

/-- Successive slash-joined prefixes of a dataset path, given the first
component and the remaining components. -/
def pathPrefixesGo (acc : String) : List String → List String
  | [] => [acc]
  | x :: xs => acc :: pathPrefixesGo (acc ++ "/" ++ x) xs

/-- All ancestor paths of a dataset path including itself, shortest first:
`pathPrefixes "a/b/c" = ["a", "a/b", "a/b/c"]`. -/
def pathPrefixes (d : String) : List String :=
  match splitOnChar '/' d with
  | [] => []
  | c :: rest => pathPrefixesGo c rest

/-- Dataset `x` lies in the subtree rooted at `anc` (is `anc` itself or a
descendant), the set affected by `zfs destroy -r anc` and `zfs rename anc`. -/
def dsUnder (anc x : String) : Bool :=
  anc == x || (anc ++ "/").isPrefixOf x

/-- Dataset part of a snapshot name `ds@snap`. -/
def snapDataset (s : String) : String :=
  (splitOnChar '@' s).headD ""

/-- Effect of `zfs create -p d`: every missing ancestor of `d` (and `d`
itself) comes into existence. -/
def insertMissingPrefixes (ds : List String) (d : String) : List String :=
  (pathPrefixes d).foldl (fun acc p => if acc.contains p then acc else p :: acc) ds

/-- Effect of `zfs destroy -r d` on the world: the dataset, its descendants,
their snapshots and their quota properties disappear. -/
def destroyRecursive (s : Sys) (d : String) : Sys :=
  { s with
    datasets := s.datasets.filter (fun x => !(dsUnder d x))
    snapshots := s.snapshots.filter (fun x => !(dsUnder d (snapDataset x)))
    quotas := s.quotas.filter (fun p => !(dsUnder d p.1)) }

/-- Zfs.dataset_exists (zfs.py line 20). -/
def dsExists (s : Sys) (d : String) : Bool := s.datasets.contains d

/-- Zfs.snapshot_exists (zfs.py line 28). -/
def snapExists (s : Sys) (d : String) : Bool := s.snapshots.contains d

/-- Zfs.create_dataset (zfs.py line 63): runs `zfs create -p`; on command
failure `System._run` raises the base `SmbZfsError`. -/
def zfsCreateDataset (env : Env) (s : Sys) (d : String) :
    Except PyErr Unit × Sys × List Ev :=
  let ev := Ev.zfsCreate d
  if env.cmdOk ev then
    (.ok (), { s with datasets := insertMissingPrefixes s.datasets d }, [ev])
  else
    (.error (.smbZfsError "zfs create command failed"), s, [ev])

/-- Zfs.destroy_dataset (zfs.py line 67): recursive destroy guarded by an
existence check, so destroying an absent dataset is a no-op. -/
def zfsDestroyDataset (env : Env) (s : Sys) (d : String) :
    Except PyErr Unit × Sys × List Ev :=
  if dsExists s d then
    let ev := Ev.zfsDestroyR d
    if env.cmdOk ev then (.ok (), destroyRecursive s d, [ev])
    else (.error (.smbZfsError "zfs destroy command failed"), s, [ev])
  else (.ok (), s, [])

/-- Association-list update with Python dict semantics: replace in place,
append when the key is new. -/
def setAssoc {α : Type} (l : List (String × α)) (k : String) (v : α) :
    List (String × α) :=
  match l with
  | [] => [(k, v)]
  | (k2, v2) :: t => if k2 = k then (k, v) :: t else (k2, v2) :: setAssoc t k v

/-- Association-list deletion (dict `pop`), removing the unique binding. -/
def delAssoc {α : Type} (l : List (String × α)) (k : String) :
    List (String × α) :=
  match l with
  | [] => []
  | (k2, v2) :: t => if k2 = k then t else (k2, v2) :: delAssoc t k

/-- Zfs.set_quota (zfs.py line 72): guarded by an existence check. -/
def zfsSetQuota (env : Env) (s : Sys) (d q : String) :
    Except PyErr Unit × Sys × List Ev :=
  if dsExists s d then
    let ev := Ev.zfsSetQuota d q
    if env.cmdOk ev then (.ok (), { s with quotas := setAssoc s.quotas d q }, [ev])
    else (.error (.smbZfsError "zfs set command failed"), s, [ev])
  else (.ok (), s, [])

/-- Zfs.get_quota (zfs.py line 77): returns the quota property for an
existing dataset ("none" when never set, which is what `zfs get` reports),
and Python `None` for a missing dataset. -/
def zfsGetQuota (s : Sys) (d : String) : Option String :=
  if dsExists s d then some ((s.quotas.lookup d).getD "none") else none

/-- Renaming of one path under `zfs rename old new`: paths in the subtree of
`old` get the prefix `new` instead. -/
def renamePath (old new x : String) : String :=
  if old == x then new
  else if (old ++ "/").isPrefixOf x then
    new ++ strDropChars x old.data.length
  else x

/-- Zfs.rename_dataset (zfs.py line 86): raises `ZfsCmdError` when the
source is missing or the destination already exists, otherwise renames the
whole subtree (datasets, snapshots, quota keys). -/
def zfsRenameDataset (env : Env) (s : Sys) (old new : String) :
    Except PyErr Unit × Sys × List Ev :=
  if !dsExists s old then
    (.error (.zfsCmdError "cannot rename: source dataset does not exist"), s, [])
  else if dsExists s new then
    (.error (.zfsCmdError "cannot rename: destination dataset already exists"), s, [])
  else
    let ev := Ev.zfsRename old new
    if env.cmdOk ev then
      (.ok (),
        { s with
          datasets := s.datasets.map (renamePath old new)
          snapshots := s.snapshots.map (fun sn =>
            renamePath old new (snapDataset sn) ++ strDropChars sn (snapDataset sn).data.length)
          quotas := s.quotas.map (fun p => (renamePath old new p.1, p.2)) },
        [ev])
    else (.error (.smbZfsError "zfs rename command failed"), s, [ev])

/-- Name of the unique migration snapshot taken on the source dataset,
`f"{dataset_path}@moving_{int(time.time())}"` (zfs.py lines 122-124). -/
def moveSourceSnap (env : Env) (path : String) : String :=
  path ++ "@moving_" ++ toString env.nowEpoch

/-- Destination dataset of the pool migration,
`f"{new_pool}/{'/'.join(base_dataset_name)}"` (zfs.py line 125). -/
def moveDestDataset (path newPool : String) : String :=
  newPool ++ "/" ++ String.intercalate "/" ((splitOnChar '/' path).drop 1)

/-- Destination snapshot of the pool migration (zfs.py line 126). -/
def moveDestSnap (env : Env) (path newPool : String) : String :=
  moveDestDataset path newPool ++ "@moving_" ++ toString env.nowEpoch

/-- Parent-recreation loop of `Zfs.move_dataset` (zfs.py lines 116-120):
`create_dataset` on each successive ancestor under the destination pool. -/
def moveCreateParents (env : Env) (accPath : String) (comps : List String) (s : Sys) :
    Except PyErr Unit × Sys × List Ev :=
  match comps with
  | [] => (.ok (), s, [])
  | c :: rest =>
    let p := accPath ++ "/" ++ c
    match zfsCreateDataset env s p with
    | (.ok _, s1, t1) =>
      let (r, s2, t2) := moveCreateParents env p rest s1
      (r, s2, t1 ++ t2)
    | (.error e, s1, t1) => (.error e, s1, t1)

/-- Best-effort cleanup in the `except` branch of `Zfs.move_dataset`
(zfs.py lines 152-158): destroy the partially created destination dataset
and the dangling source snapshot, both with `check=False` so their own
failures are ignored. -/
def moveCleanup (env : Env) (s : Sys) (destDs srcSnap : String) : Sys × List Ev :=
  let (sA, tA) :=
    if dsExists s destDs then
      let ev := Ev.zfsDestroyR destDs
      if env.cmdOk ev then (destroyRecursive s destDs, [ev]) else (s, [ev])
    else (s, [])
  let (sB, tB) :=
    if snapExists sA srcSnap then
      let ev := Ev.zfsDestroySnap srcSnap
      if env.cmdOk ev then ({ sA with snapshots := sA.snapshots.erase srcSnap }, [ev])
      else (sA, [ev])
    else (sA, [])
  (sB, tA ++ tB)

/-- World state right after a successful `zfs send | zfs recv -F`
(zfs.py lines 133-137): the migration snapshot exists on the source, and the
destination dataset together with its copy of the snapshot exist. -/
def moveRecvState (env : Env) (path newPool : String) (s1 : Sys) : Sys :=
  { s1 with
    datasets := moveDestDataset path newPool :: s1.datasets
    snapshots := moveDestSnap env path newPool :: moveSourceSnap env path :: s1.snapshots }

/-- Verification and destruction phase of `Zfs.move_dataset` (zfs.py lines
139-161), entered after snapshot and send/receive succeeded with world
`moveRecvState env path newPool s1` and trace `t1 ++ [snapshot, send]`.
A failed guid comparison (either guid reading the "0" sentinel or the two
differing) raises `ZfsCmdError`, which the handler catches: best-effort
cleanup then the rolled-back error.  Otherwise the source is destroyed
recursively and the destination snapshot is removed; failures of these two
commands surface as uncaught `SmbZfsError`. -/
def moveVerifyPhase (env : Env) (path newPool : String) (s1 : Sys) (t1 : List Ev) :
    Except PyErr Unit × Sys × List Ev :=
  if env.guid (moveSourceSnap env path) = "0" ∨ env.guid (moveDestSnap env path newPool) = "0" ∨
      env.guid (moveSourceSnap env path) ≠ env.guid (moveDestSnap env path newPool) then
    match moveCleanup env (moveRecvState env path newPool s1)
        (moveDestDataset path newPool) (moveSourceSnap env path) with
    | (s4, t4) =>
      (.error (.zfsCmdError "zfs move failed and has been rolled back"), s4,
        t1 ++ [Ev.zfsSnapshot (moveSourceSnap env path),
          Ev.zfsSendRecv (moveSourceSnap env path) (moveDestDataset path newPool)] ++ t4)
  else if !env.cmdOk (Ev.zfsDestroyR path) then
    (.error (.smbZfsError "zfs destroy command failed"), moveRecvState env path newPool s1,
      t1 ++ [Ev.zfsSnapshot (moveSourceSnap env path),
        Ev.zfsSendRecv (moveSourceSnap env path) (moveDestDataset path newPool),
        Ev.zfsDestroyR path])
  else if !env.cmdOk (Ev.zfsDestroySnap (moveDestSnap env path newPool)) then
    (.error (.smbZfsError "zfs destroy command failed"),
      destroyRecursive (moveRecvState env path newPool s1) path,
      t1 ++ [Ev.zfsSnapshot (moveSourceSnap env path),
        Ev.zfsSendRecv (moveSourceSnap env path) (moveDestDataset path newPool),
        Ev.zfsDestroyR path, Ev.zfsDestroySnap (moveDestSnap env path newPool)])
  else
    (.ok (),
      { destroyRecursive (moveRecvState env path newPool s1) path with
        snapshots := (destroyRecursive (moveRecvState env path newPool s1) path).snapshots.erase
          (moveDestSnap env path newPool) },
      t1 ++ [Ev.zfsSnapshot (moveSourceSnap env path),
        Ev.zfsSendRecv (moveSourceSnap env path) (moveDestDataset path newPool),
        Ev.zfsDestroyR path, Ev.zfsDestroySnap (moveDestSnap env path newPool)])

/-- Zfs.move_dataset (zfs.py lines 98-161), the pool-migration algorithm.
Mirrors the source step by step: existence checks, space check, parent
recreation, snapshot, send|recv, then `moveVerifyPhase` (guid verification,
destroy source, destroy destination snapshot).  The `except
(CalledProcessError, ZfsCmdError)` handler only catches the
guid-verification `ZfsCmdError` because failed commands surface from
`System._run` as base-class `SmbZfsError` instances (not caught, see
`PyErr.caughtByMoveHandler`). -/
def moveDataset (env : Env) (s : Sys) (path newPool : String) :
    Except PyErr Unit × Sys × List Ev :=
  if !dsExists s path then
    (.error (.zfsCmdError "source dataset does not exist"), s, [])
  else if !dsExists s newPool then
    (.error (.zfsCmdError "destination pool does not exist"), s, [])
  else if env.usedBytes path > env.availBytes newPool then
    (.error (.zfsCmdError "not enough space on destination pool"), s, [])
  else
    match moveCreateParents env newPool ((splitOnChar '/' path).drop 1).dropLast s with
    | (.error e, s1, t1) => (.error e, s1, t1)
    | (.ok _, s1, t1) =>
      if dsExists s1 (moveDestDataset path newPool) then
        (.error (.zfsCmdError "destination dataset already exists, remove it first"), s1, t1)
      else if !env.cmdOk (Ev.zfsSnapshot (moveSourceSnap env path)) then
        (.error (.smbZfsError "zfs snapshot command failed"), s1,
          t1 ++ [Ev.zfsSnapshot (moveSourceSnap env path)])
      else if !env.cmdOk (Ev.zfsSendRecv (moveSourceSnap env path) (moveDestDataset path newPool)) then
        (.error (.smbZfsError "zfs send recv pipe failed"),
          { s1 with snapshots := moveSourceSnap env path :: s1.snapshots },
          t1 ++ [Ev.zfsSnapshot (moveSourceSnap env path),
            Ev.zfsSendRecv (moveSourceSnap env path) (moveDestDataset path newPool)])
      else
        moveVerifyPhase env path newPool s1 t1

/-- Dataset sub-record of a User or Share record in the state store
(smb_zfs.py lines 209-214 and 391-397).  `quota` is `Option String` because
Python stores `None` there when no default quota is configured. -/
structure DatasetRec where
  name : String
  mountPoint : String
  quota : Option String
  pool : String
  deriving DecidableEq, Repr

/-- User record of the state store (smb_zfs.py lines 189-214).  `dataset` is
absent exactly when the user was created with `create_home=False`. -/
structure UserRec where
  shellAccess : Bool
  groups : List String
  created : String
  dataset : Option DatasetRec
  deriving DecidableEq, Repr

/-- Group record of the state store (smb_zfs.py lines 299-303). -/
structure GroupRec where
  description : String
  members : List String
  created : String
  deriving DecidableEq, Repr

/-- smb_config sub-record of a Share record (smb_zfs.py lines 398-403). -/
structure ShareSmb where
  comment : String
  browseable : Bool
  readOnly : Bool
  validUsers : String
  deriving DecidableEq, Repr

/-- system sub-record of a Share record (smb_zfs.py lines 404-408). -/
structure ShareSystem where
  owner : String
  group : String
  permissions : String
  deriving DecidableEq, Repr

/-- Share record of the state store (smb_zfs.py lines 391-410). -/
structure ShareRec where
  dataset : DatasetRec
  smbConfig : ShareSmb
  system : ShareSystem
  created : String
  deriving DecidableEq, Repr

/-- Contents of the JSON state file, per StateManager._initialize_state_file
(state_manager.py lines 16-29): the global scalar keys plus the three item
categories as name-keyed maps (association lists in insertion order, like
Python dicts). -/
structure StoreData where
  initialized : Bool
  primaryPool : Option String
  secondaryPools : List String
  serverName : Option String
  workgroup : Option String
  macosOptimized : Bool
  defaultHomeQuota : Option String
  users : List (String × UserRec)
  groups : List (String × GroupRec)
  shares : List (String × ShareRec)
  deriving DecidableEq, Repr

/-- The StateManager (state_manager.py): in-memory `data` plus the persisted
file contents.  `save` copies data to the file; reads and in-place dict
mutation touch only `data`. -/
structure SM where
  data : StoreData
  persisted : StoreData
  deriving DecidableEq, Repr

/-- StateManager.save (state_manager.py line 49): writes `data` to the state
file (the `.backup` sibling copy is not modelled). -/
def smSave (sm : SM) : SM := { sm with persisted := sm.data }

/-- Whole world of a SmbZfsManager instance: the live OS/ZFS state plus the
state manager. -/
structure MState where
  sys : Sys
  sm : SM
  deriving DecidableEq, Repr

/-- Rollback closures appended to the `_transaction` rollback list by
create_user / create_group (smb_zfs.py lines 199, 222, 239, 286). -/
inductive RbAct where
  | rbDestroyDataset (d : String)
  | rbDeleteSystemUser (u : String)
  | rbDeleteSambaUser (u : String)
  | rbDeleteSystemGroup (g : String)
  deriving DecidableEq, Repr

/-- System.user_exists (system.py line 80). -/
def sysUserExists (s : Sys) (u : String) : Bool := s.osUsers.contains u

/-- System.group_exists (system.py line 88). -/
def sysGroupExists (s : Sys) (g : String) : Bool := s.osGroups.contains g

/-- System.samba_user_exists (system.py line 148). -/
def sambaUserExists (s : Sys) (u : String) : Bool := s.sambaUsers.contains u

/-- System.add_system_user (system.py line 96): no-op when the user exists,
otherwise `useradd` (the home-dir/shell arguments shape the argv only). -/
def addSystemUser (env : Env) (s : Sys) (u : String) (_homeDir : Option String)
    (_shell : String) : Except PyErr Unit × Sys × List Ev :=
  if sysUserExists s u then (.ok (), s, [])
  else
    let ev := Ev.useradd u
    if env.cmdOk ev then (.ok (), { s with osUsers := u :: s.osUsers }, [ev])
    else (.error (.smbZfsError "useradd command failed"), s, [ev])

/-- System.delete_system_user (system.py line 109): guarded `userdel`, which
removes the account and with it the user's group memberships. -/
def deleteSystemUser (env : Env) (s : Sys) (u : String) :
    Except PyErr Unit × Sys × List Ev :=
  if sysUserExists s u then
    let ev := Ev.userdel u
    if env.cmdOk ev then
      (.ok (),
        { s with
          osUsers := s.osUsers.erase u
          membership := s.membership.filter (fun p => !(p.1 == u)) }, [ev])
    else (.error (.smbZfsError "userdel command failed"), s, [ev])
  else (.ok (), s, [])

/-- System.add_system_group (system.py line 114): guarded `groupadd`. -/
def addSystemGroup (env : Env) (s : Sys) (g : String) :
    Except PyErr Unit × Sys × List Ev :=
  if sysGroupExists s g then (.ok (), s, [])
  else
    let ev := Ev.groupadd g
    if env.cmdOk ev then (.ok (), { s with osGroups := g :: s.osGroups }, [ev])
    else (.error (.smbZfsError "groupadd command failed"), s, [ev])

/-- System.delete_system_group (system.py line 119): guarded `groupdel`,
which also drops the group's memberships. -/
def deleteSystemGroup (env : Env) (s : Sys) (g : String) :
    Except PyErr Unit × Sys × List Ev :=
  if sysGroupExists s g then
    let ev := Ev.groupdel g
    if env.cmdOk ev then
      (.ok (),
        { s with
          osGroups := s.osGroups.erase g
          membership := s.membership.filter (fun p => !(p.2 == g)) }, [ev])
    else (.error (.smbZfsError "groupdel command failed"), s, [ev])
  else (.ok (), s, [])

/-- System.add_user_to_group (system.py line 124): `usermod -a -G`, which
adds the membership when it is not already present. -/
def addUserToGroup (env : Env) (s : Sys) (u g : String) :
    Except PyErr Unit × Sys × List Ev :=
  let ev := Ev.usermodAddToGroup u g
  if env.cmdOk ev then
    (.ok (),
      { s with membership :=
          if s.membership.contains (u, g) then s.membership else (u, g) :: s.membership },
      [ev])
  else (.error (.smbZfsError "usermod command failed"), s, [ev])

/-- System.remove_user_from_group (system.py line 128): `gpasswd -d`. -/
def removeUserFromGroup (env : Env) (s : Sys) (u g : String) :
    Except PyErr Unit × Sys × List Ev :=
  let ev := Ev.gpasswdRemove u g
  if env.cmdOk ev then
    (.ok (), { s with membership := s.membership.erase (u, g) }, [ev])
  else (.error (.smbZfsError "gpasswd command failed"), s, [ev])

/-- System.set_system_password (system.py line 132): `chpasswd`. -/
def setSystemPassword (env : Env) (s : Sys) (u : String) :
    Except PyErr Unit × Sys × List Ev :=
  let ev := Ev.chpasswd u
  if env.cmdOk ev then (.ok (), s, [ev])
  else (.error (.smbZfsError "chpasswd command failed"), s, [ev])

/-- System.add_samba_user (system.py line 136): `smbpasswd -a -s` followed by
`smbpasswd -e`. -/
def addSambaUser (env : Env) (s : Sys) (u : String) :
    Except PyErr Unit × Sys × List Ev :=
  let evA := Ev.smbpasswdAdd u
  if env.cmdOk evA then
    let s1 := { s with sambaUsers :=
      if s.sambaUsers.contains u then s.sambaUsers else u :: s.sambaUsers }
    let evE := Ev.smbpasswdEnable u
    if env.cmdOk evE then (.ok (), s1, [evA, evE])
    else (.error (.smbZfsError "smbpasswd enable command failed"), s1, [evA, evE])
  else (.error (.smbZfsError "smbpasswd add command failed"), s, [evA])

/-- System.delete_samba_user (system.py line 143): guarded `smbpasswd -x`. -/
def deleteSambaUser (env : Env) (s : Sys) (u : String) :
    Except PyErr Unit × Sys × List Ev :=
  if sambaUserExists s u then
    let ev := Ev.smbpasswdDelete u
    if env.cmdOk ev then (.ok (), { s with sambaUsers := s.sambaUsers.erase u }, [ev])
    else (.error (.smbZfsError "smbpasswd delete command failed"), s, [ev])
  else (.ok (), s, [])

/-- System.test_samba_config (system.py line 158). -/
def testSambaConfig (env : Env) (s : Sys) : Except PyErr Unit × Sys × List Ev :=
  if env.cmdOk Ev.testparm then (.ok (), s, [Ev.testparm])
  else (.error (.smbZfsError "testparm command failed"), s, [Ev.testparm])

/-- System.reload_samba (system.py line 162). -/
def reloadSamba (env : Env) (s : Sys) : Except PyErr Unit × Sys × List Ev :=
  if env.cmdOk Ev.reloadSamba then (.ok (), s, [Ev.reloadSamba])
  else (.error (.smbZfsError "systemctl reload command failed"), s, [Ev.reloadSamba])

/-- Character class `[a-z_]` of the username pattern, by code point. -/
def classFirstChar (c : Char) : Bool :=
  decide ((97 ≤ c.toNat ∧ c.toNat ≤ 122) ∨ c.toNat = 95)

/-- Character class `[a-z0-9_-]` of the username pattern, by code point. -/
def classRestChar (c : Char) : Bool :=
  decide ((97 ≤ c.toNat ∧ c.toNat ≤ 122) ∨ (48 ≤ c.toNat ∧ c.toNat ≤ 57) ∨
    c.toNat = 95 ∨ c.toNat = 45)

/-- Python `$` anchor without re.MULTILINE: it matches at the end of the
string or just before a newline at the end of the string. -/
def pyTailMatches : List Char → Bool
  | [] => true
  | [c] => c.toNat = 10
  | _ => false

/-- Matcher for the regex fragment `cls{0,n}$` under Python semantics: either
the `$` anchor already matches here, or one more character of the class is
consumed (at most `n` in total). -/
def pyRunMatch (cls : Char → Bool) : Nat → List Char → Bool
  | _, [] => true
  | 0, l => pyTailMatches l
  | n + 1, c :: rest => pyTailMatches (c :: rest) || (cls c && pyRunMatch cls n rest)

/-- Python `re.match(r"^[a-z_][a-z0-9_-]{0,31}$", name)` as a Bool
(smb_zfs.py line 94), including the `$`-before-trailing-newline rule. -/
def pyMatchUserName (s : String) : Bool :=
  match s.data with
  | [] => false
  | c :: rest => classFirstChar c && pyRunMatch classRestChar 31 rest

/-- Character class `[a-zA-Z0-9]` by code point. -/
def classShareFirst (c : Char) : Bool :=
  decide ((97 ≤ c.toNat ∧ c.toNat ≤ 122) ∨ (65 ≤ c.toNat ∧ c.toNat ≤ 90) ∨
    (48 ≤ c.toNat ∧ c.toNat ≤ 57))

/-- Character class `[a-zA-Z0-9_.\-:]` by code point. -/
def classShareRest (c : Char) : Bool :=
  classShareFirst c || decide (c.toNat = 95 ∨ c.toNat = 46 ∨ c.toNat = 45 ∨ c.toNat = 58)

/-- Python `re.match(r"^[a-zA-Z0-9][a-zA-Z0-9_.\-:]{0,79}$", name)` as a Bool
(smb_zfs.py line 107). -/
def pyMatchShareName (s : String) : Bool :=
  match s.data with
  | [] => false
  | c :: rest => classShareFirst c && pyRunMatch classShareRest 79 rest

/-- Delimiter class of `re.split(r"[._\-:]", name)` (smb_zfs.py line 108). -/
def isShareDelim (c : Char) : Bool :=
  decide (c.toNat = 46 ∨ c.toNat = 95 ∨ c.toNat = 45 ∨ c.toNat = 58)

/-- Python `re.split` on the share-delimiter class. -/
def splitOnDelims (l : List Char) : List (List Char) :=
  l.foldr
    (fun c acc =>
      if isShareDelim c then [] :: acc
      else
        match acc with
        | h :: t => (c :: h) :: t
        | [] => [[c]])
    [[]]

/-- Character class `[a-zA-Z0-9._-]` of the fallback name pattern. -/
def classDefaultName (c : Char) : Bool :=
  classShareFirst c || decide (c.toNat = 46 ∨ c.toNat = 95 ∨ c.toNat = 45)

/-- Matcher for the regex fragment `cls*$` (unbounded) under Python
semantics. -/
def pyRunMatchAll (cls : Char → Bool) : List Char → Bool
  | [] => true
  | c :: rest => pyTailMatches (c :: rest) || (cls c && pyRunMatchAll cls rest)

/-- Python `re.match(r"^[a-zA-Z0-9._-]+$", name)` as a Bool (smb_zfs.py
line 115). -/
def pyMatchDefaultName (s : String) : Bool :=
  match s.data with
  | [] => false
  | c :: rest => classDefaultName c && pyRunMatchAll classDefaultName rest

/-- Error message for an invalid user/group/owner name. -/
def invalidPosixNameMsg (itemType name : String) : String :=
  itemType ++ " name " ++ name ++ " is invalid: it must be all lowercase, start with a letter or underscore, contain only letters, numbers, underscores, or hyphens, and be max 32 characters."

/-- Error message for an invalid share name. -/
def invalidShareNameMsg (name : String) : String :=
  "Share name " ++ name ++ " is invalid."

/-- Error message of the fallback name branch. -/
def invalidDefaultNameMsg (itemType name : String) : String :=
  itemType ++ " name " ++ name ++ " contains invalid characters."

/-- SmbZfsManager._validate_name (smb_zfs.py lines 87-118). -/
def validateName (name itemType : String) : Except PyErr Unit :=
  let t := toLowerStr itemType
  if t = "user" ∨ t = "group" ∨ t = "owner" then
    if pyMatchUserName name then .ok ()
    else .error (.invalidNameError (invalidPosixNameMsg itemType name))
  else if t = "share" then
    if !pyMatchShareName name ∨ (splitOnDelims name.data).contains [] then
      .error (.invalidNameError (invalidShareNameMsg name))
    else .ok ()
  else
    if pyMatchDefaultName name then .ok ()
    else .error (.invalidNameError (invalidDefaultNameMsg itemType name))

/-- The username pattern `^[a-z_][a-z0-9_-]{0,31}$` read as a plain anchored
regular expression, following the spec text (section 8, Name validation):
first character in `[a-z_]`, up to 31 further characters in `[a-z0-9_-]`,
nothing else.  This is the specification-side definition against which the
Python `re.match` behaviour is compared. -/
def specUserNamePattern (s : String) : Bool :=
  match s.data with
  | [] => false
  | c :: rest => classFirstChar c && rest.all classRestChar && decide (rest.length ≤ 31)

/-- Python truthiness of an optional string (None and the empty string are
falsy). -/
def pyTruthy : Option String → Bool
  | none => false
  | some s => s ≠ ""

/-- Python f-string rendering of a possibly-None value. -/
def optStr : Option String → String
  | none => "None"
  | some s => s

/-- Permissions check `re.match(r"^[0-7]{3,4}$", perms)` (smb_zfs.py lines
345 and 540).  Following the same Python `$` rule, a trailing newline after
3 or 4 octal digits would also match; the faithful matcher is spelled out
directly on the character list. -/
def permsOk (s : String) : Bool :=
  permsRun 0 s.data
where
  /-- Consume octal digits counting them, then apply the `$` rule once at
  least three have been consumed. -/
  permsRun : Nat → List Char → Bool
    | k, [] => decide (3 ≤ k ∧ k ≤ 4)
    | k, c :: rest =>
      (decide (3 ≤ k ∧ k ≤ 4) && pyTailMatches (c :: rest)) ||
        (decide (k < 4) && decide (48 ≤ c.toNat ∧ c.toNat ≤ 55) && permsRun (k + 1) rest)

/-- Execution of one rollback closure inside the `_transaction` failure
handler (smb_zfs.py lines 66-72): the action runs, and an exception it
raises is printed but swallowed. -/
def runRbAct (env : Env) (s : Sys) : RbAct → Sys × List Ev
  | .rbDestroyDataset d =>
    match zfsDestroyDataset env s d with
    | (_, s1, t) => (s1, t)
  | .rbDeleteSystemUser u =>
    match deleteSystemUser env s u with
    | (_, s1, t) => (s1, t)
  | .rbDeleteSambaUser u =>
    match deleteSambaUser env s u with
    | (_, s1, t) => (s1, t)
  | .rbDeleteSystemGroup g =>
    match deleteSystemGroup env s g with
    | (_, s1, t) => (s1, t)

/-- Sequential execution of a list of rollback closures. -/
def runRollbacks (env : Env) (s : Sys) : List RbAct → Sys × List Ev
  | [] => (s, [])
  | a :: rest =>
    let (s1, t1) := runRbAct env s a
    let (s2, t2) := runRollbacks env s1 rest
    (s2, t1 ++ t2)

/-- Failure path of SmbZfsManager._transaction (smb_zfs.py lines 62-80):
run the registered rollback actions in reverse order (best effort), then
restore the state file to its pre-transaction snapshot and save it.  The
original exception is re-raised by the caller. -/
def txAbort (env : Env) (orig : StoreData) (s : Sys) (acts : List RbAct) :
    Sys × SM × List Ev :=
  let (s1, t) := runRollbacks env s acts.reverse
  (s1, { data := orig, persisted := orig }, t)

/-- Group-membership loop of create_user (smb_zfs.py lines 244-250): each
requested group must exist in the state store, else the transaction is
aborted by a raised not-found error; known groups get a `usermod` call and
are collected in order. -/
def createUserGroups (env : Env) (store : StoreData) (u : String) :
    List String → Sys → Except PyErr (List String) × Sys × List Ev
  | [], s => (.ok [], s, [])
  | g :: rest, s =>
    if (store.groups.lookup g).isSome then
      match addUserToGroup env s u g with
      | (.ok _, s1, t1) =>
        match createUserGroups env store u rest s1 with
        | (.ok gs, s2, t2) => (.ok (g :: gs), s2, t1 ++ t2)
        | (.error e, s2, t2) => (.error e, s2, t1 ++ t2)
      | (.error e, s1, t1) => (.error e, s1, t1)
    else (.error (.stateItemNotFoundError "group" g), s, [])

/-- Home dataset path `f"{primary_pool}/homes/{username}"` of create_user
(smb_zfs.py line 186). -/
def userHomeDs (store : StoreData) (username : String) : String :=
  optStr store.primaryPool ++ "/homes/" ++ username

/-- Transaction body of create_user (smb_zfs.py lines 188-256), entered
after all validation passed.  `orig` is the pre-transaction state snapshot;
each step appends its rollback closure exactly where the source does, and
any raised error lands in `txAbort`. -/
def createUserTx (env : Env) (s0 : Sys) (orig : StoreData)
    (username : String) (allowShell : Bool) (groups : Option (List String))
    (createHome : Bool) (primaryPool homeDs : String) :
    Except PyErr StoreData × MState × List Ev :=
  let fail := fun (s : Sys) (acts : List RbAct) (tr : List Ev) (e : PyErr) =>
    let (s1, sm1, t1) := txAbort env orig s acts
    ((.error e : Except PyErr StoreData), ({ sys := s1, sm := sm1 } : MState), tr ++ t1)
  match
    (if createHome then
      match zfsCreateDataset env s0 homeDs with
      | (.error e, s1, t1) => .error (e, s1, ([] : List RbAct), t1)
      | (.ok _, s1, t1) =>
        let acts := [RbAct.rbDestroyDataset homeDs]
        if pyTruthy orig.defaultHomeQuota then
          match zfsSetQuota env s1 homeDs (optStr orig.defaultHomeQuota) with
          | (.error e, s2, t2) => .error (e, s2, acts, t1 ++ t2)
          | (.ok _, s2, t2) =>
            .ok (s2, acts, t1 ++ t2,
              some ({ name := homeDs, mountPoint := env.mount homeDs,
                      quota := orig.defaultHomeQuota, pool := primaryPool } : DatasetRec))
        else
          .ok (s1, acts, t1,
            some ({ name := homeDs, mountPoint := env.mount homeDs,
                    quota := orig.defaultHomeQuota, pool := primaryPool } : DatasetRec))
     else .ok (s0, [], [], none) :
      Except (PyErr × Sys × List RbAct × List Ev)
        (Sys × List RbAct × List Ev × Option DatasetRec))
  with
  | .error (e, s1, acts, tr) => fail s1 acts tr e
  | .ok (s1, acts, tr, dsRec) =>
    match addSystemUser env s1 username
        (if allowShell then (if createHome then some (env.mount homeDs) else none) else none)
        (if allowShell then "/bin/bash" else "/usr/sbin/nologin") with
    | (.error e, s2, t2) => fail s2 acts (tr ++ t2) e
    | (.ok _, s2, t2) =>
      let acts := acts ++ [RbAct.rbDeleteSystemUser username]
      let tr := tr ++ t2
      let (s3, tr) :=
        if createHome then
          (s2, tr ++ [Ev.chownEv (env.mount homeDs), Ev.chmodEv (env.mount homeDs)])
        else (s2, tr)
      match
        (if allowShell then setSystemPassword env s3 username else (.ok (), s3, [])) with
      | (.error e, s4, t4) => fail s4 acts (tr ++ t4) e
      | (.ok _, s4, t4) =>
        let tr := tr ++ t4
        match addSambaUser env s4 username with
        | (.error e, s5, t5) => fail s5 acts (tr ++ t5) e
        | (.ok _, s5, t5) =>
          let acts := acts ++ [RbAct.rbDeleteSambaUser username]
          let tr := tr ++ t5
          match addUserToGroup env s5 username "smb_users" with
          | (.error e, s6, t6) => fail s6 acts (tr ++ t6) e
          | (.ok _, s6, t6) =>
            let tr := tr ++ t6
            match createUserGroups env orig username (groups.getD []) s6 with
            | (.error e, s7, t7) => fail s7 acts (tr ++ t7) e
            | (.ok userGroups, s7, t7) =>
              let tr := tr ++ t7
              let userData : UserRec :=
                { shellAccess := allowShell, groups := userGroups,
                  created := env.nowIso, dataset := dsRec }
              let newData := { orig with users := setAssoc orig.users username userData }
              (.ok newData,
                { sys := s7, sm := { data := newData, persisted := newData } }, tr)

/-- SmbZfsManager.create_user (smb_zfs.py lines 177-257): decorator init
check, name validation, uniqueness checks against the state store and the
OS, then the transactional body. -/
def createUser (env : Env) (m : MState) (username : String)
    (allowShell : Bool) (groups : Option (List String)) (createHome : Bool) :
    Except PyErr StoreData × MState × List Ev :=
  if !m.sm.data.initialized then (.error .notInitializedError, m, [])
  else
    match validateName username "user" with
    | .error e => (.error e, m, [])
    | .ok _ =>
      if (m.sm.data.users.lookup username).isSome then
        (.error (.itemExistsError "user" username), m, [])
      else if sysUserExists m.sys username then
        (.error (.itemExistsError "system user" username), m, [])
      else
        createUserTx env m.sys m.sm.data username allowShell groups createHome
          (optStr m.sm.data.primaryPool) (userHomeDs m.sm.data username)

/-- Member loop of create_group (smb_zfs.py lines 290-296): each member must
be a known user in the state store, else the transaction aborts; known
members get a `usermod` call and are collected in order. -/
def createGroupMembers (env : Env) (store : StoreData) (gname : String) :
    List String → Sys → Except PyErr (List String) × Sys × List Ev
  | [], s => (.ok [], s, [])
  | u :: rest, s =>
    if (store.users.lookup u).isSome then
      match addUserToGroup env s u gname with
      | (.ok _, s1, t1) =>
        match createGroupMembers env store gname rest s1 with
        | (.ok us, s2, t2) => (.ok (u :: us), s2, t1 ++ t2)
        | (.error e, s2, t2) => (.error e, s2, t1 ++ t2)
      | (.error e, s1, t1) => (.error e, s1, t1)
    else (.error (.stateItemNotFoundError "user" u), s, [])

/-- SmbZfsManager.create_group (smb_zfs.py lines 275-306). -/
def createGroup (env : Env) (m : MState) (groupname description : String)
    (members : Option (List String)) :
    Except PyErr StoreData × MState × List Ev :=
  if !m.sm.data.initialized then (.error .notInitializedError, m, [])
  else
    match validateName groupname "group" with
    | .error e => (.error e, m, [])
    | .ok _ =>
      if (m.sm.data.groups.lookup groupname).isSome then
        (.error (.itemExistsError "group" groupname), m, [])
      else if sysGroupExists m.sys groupname then
        (.error (.itemExistsError "system group" groupname), m, [])
      else
        let orig := m.sm.data
        let fail := fun (s : Sys) (acts : List RbAct) (tr : List Ev) (e : PyErr) =>
          let (s1, sm1, t1) := txAbort env orig s acts
          ((.error e : Except PyErr StoreData), ({ sys := s1, sm := sm1 } : MState), tr ++ t1)
        match addSystemGroup env m.sys groupname with
        | (.error e, s1, t1) => fail s1 [] t1 e
        | (.ok _, s1, t1) =>
          let acts := [RbAct.rbDeleteSystemGroup groupname]
          match createGroupMembers env orig groupname (members.getD []) s1 with
          | (.error e, s2, t2) => fail s2 acts (t1 ++ t2) e
          | (.ok added, s2, t2) =>
            let groupConfig : GroupRec :=
              { description := if description ≠ "" then description else groupname ++ " Group",
                members := added, created := env.nowIso }
            let newData := { orig with groups := setAssoc orig.groups groupname groupConfig }
            (.ok newData,
              { sys := s2, sm := { data := newData, persisted := newData } }, t1 ++ t2)

/-- SmbZfsManager.delete_group (smb_zfs.py lines 308-320).  Note the
protected-group branch raises the base `SmbZfsError` (line 313), not the
`ImmutableError` subclass that errors.py defines for protected items. -/
def deleteGroup (env : Env) (m : MState) (groupname : String) :
    Except PyErr StoreData × MState × List Ev :=
  if !m.sm.data.initialized then (.error .notInitializedError, m, [])
  else if !(m.sm.data.groups.lookup groupname).isSome then
    (.error (.stateItemNotFoundError "group" groupname), m, [])
  else if groupname = "smb_users" then
    (.error (.smbZfsError "Cannot delete the mandatory smb_users group."), m, [])
  else
    match
      (if sysGroupExists m.sys groupname then deleteSystemGroup env m.sys groupname
       else (.ok (), m.sys, [])) with
    | (.error e, s1, t1) => (.error e, { m with sys := s1 }, t1)
    | (.ok _, s1, t1) =>
      let newData := { m.sm.data with groups := delAssoc m.sm.data.groups groupname }
      (.ok newData, { sys := s1, sm := { data := newData, persisted := newData } }, t1)

/-- SmbZfsManager.modify_home (smb_zfs.py lines 699-710): a user record
without a `dataset` field makes `user_info["dataset"]` raise a bare
`KeyError` before any quota normalization or store write happens. -/
def modifyHome (env : Env) (m : MState) (username : String) (quota : Option String) :
    Except PyErr StoreData × MState × List Ev :=
  if !m.sm.data.initialized then (.error .notInitializedError, m, [])
  else
    match m.sm.data.users.lookup username with
    | none => (.error (.stateItemNotFoundError "user" username), m, [])
    | some rec =>
      match rec.dataset with
      | none => (.error (.keyError "dataset"), m, [])
      | some ds =>
        let newQuota :=
          match quota with
          | some q => if q ≠ "" ∧ toLowerStr q ≠ "none" then q else "none"
          | none => "none"
        match zfsSetQuota env m.sys ds.name newQuota with
        | (.error e, s1, t1) => (.error e, { m with sys := s1 }, t1)
        | (.ok _, s1, t1) =>
          let rec2 := { rec with dataset := some { ds with quota := some newQuota } }
          let newData := { m.sm.data with users := setAssoc m.sm.data.users username rec2 }
          (.ok newData, { sys := s1, sm := { data := newData, persisted := newData } }, t1)

/-- Display value used by list_items for the quota column (smb_zfs.py lines
745 and 750): the live `zfs get quota` value if it is truthy and not the
sentinel "none", otherwise the string "Not Set". -/
def displayQuota (live : Option String) : String :=
  match live with
  | some q => if q ≠ "" ∧ q ≠ "none" then q else "Not Set"
  | none => "Not Set"

/-- Display rewrite applied to one user record by list_items (smb_zfs.py
lines 742-745): when the record has a dataset, its quota field is replaced
by the display value computed from the live `zfs get quota`. -/
def userDisplayRec (sys : Sys) (r : UserRec) : UserRec :=
  match r.dataset with
  | some ds => { r with dataset := some { ds with quota := some (displayQuota (zfsGetQuota sys ds.name)) } }
  | none => r

/-- SmbZfsManager.list_items("users") (smb_zfs.py lines 729-745).
`self._state.list_items` returns the live dict out of StateManager.data, so
the quota overwrite performed for display mutates the in-memory store
records in place; no `save` is called, so the persisted file copy is not
touched by the call itself. -/
def listItemsUsers (m : MState) : Except PyErr (List (String × UserRec)) × MState :=
  if !m.sm.data.initialized then (.error .notInitializedError, m)
  else
    let items := m.sm.data.users.map (fun p => (p.1, userDisplayRec m.sys p.2))
    (.ok items, { m with sm := { m.sm with data := { m.sm.data with users := items } } })

/-- Display rewrite applied to one share record by list_items (smb_zfs.py
lines 747-750). -/
def shareDisplayRec (sys : Sys) (r : ShareRec) : ShareRec :=
  { r with dataset := { r.dataset with quota := some (displayQuota (zfsGetQuota sys r.dataset.name)) } }

/-- SmbZfsManager.list_items("shares") (smb_zfs.py lines 729-752), same
aliased in-place quota overwrite as the users branch. -/
def listItemsShares (m : MState) : Except PyErr (List (String × ShareRec)) × MState :=
  if !m.sm.data.initialized then (.error .notInitializedError, m)
  else
    let items := m.sm.data.shares.map (fun p => (p.1, shareDisplayRec m.sys p.2))
    (.ok items, { m with sm := { m.sm with data := { m.sm.data with shares := items } } })

/-- Sparse update arguments of modify_share (smb_zfs.py lines 476-478);
`none` means the keyword argument was not supplied. -/
structure ModifyShareArgs where
  name : Option String := none
  pool : Option String := none
  quota : Option String := none
  owner : Option String := none
  group : Option String := none
  permissions : Option String := none
  comment : Option String := none
  validUsers : Option String := none
  readOnly : Option Bool := none
  browseable : Option Bool := none
  deriving DecidableEq, Repr

/-- Python `item.lstrip("@")`. -/
def lstripAt (s : String) : String :=
  String.mk (s.data.dropWhile (fun c => c == '@'))

/-- valid_users token validation loop (smb_zfs.py lines 558-563): tokens
containing `@` must name an existing OS group, others an existing OS user. -/
def checkValidUsers (s : Sys) : List String → Except PyErr Unit
  | [] => .ok ()
  | item :: rest =>
    let itemName := lstripAt item
    if containsChar item '@' then
      if sysGroupExists s itemName then checkValidUsers s rest
      else .error (.stateItemNotFoundError "group" itemName)
    else
      if sysUserExists s itemName then checkValidUsers s rest
      else .error (.stateItemNotFoundError "user" itemName)

/-- Threaded state of the modify_share try block: live world, state manager,
the current share key and record (the Python code mutates the record dict in
place; the embedding carries it as a value and writes it to the store exactly
at the source's `set_item` calls, which is observationally equivalent because
the only intermediate store read, the re-fetch after `set_item`, returns the
just-written record), the config-dirty flag and the event trace. -/
structure MsCtx where
  sys : Sys
  sm : SM
  shareName : String
  info : ShareRec
  confChanged : Bool
  tr : List Ev
  deriving Repr

/-- Pool-change branch of modify_share (smb_zfs.py lines 488-502). -/
def msPoolStep (env : Env) (a : ModifyShareArgs) (ctx : MsCtx) :
    Except (PyErr × MsCtx) MsCtx :=
  match a.pool with
  | none => .ok ctx
  | some p =>
    if p = ctx.info.dataset.pool then .ok ctx
    else if !(ctx.sm.data.primaryPool = some p ∨ ctx.sm.data.secondaryPools.contains p) then
      .error (.smbZfsError "Target pool is not a valid managed pool.", ctx)
    else
      let oldName := ctx.info.dataset.name
      let pathInPool := String.intercalate "/" ((splitOnChar '/' oldName).drop 1)
      let newName := p ++ "/" ++ pathInPool
      match moveDataset env ctx.sys oldName p with
      | (.error e, s1, t1) => .error (e, { ctx with sys := s1, tr := ctx.tr ++ t1 })
      | (.ok _, s1, t1) =>
        let ds2 := { ctx.info.dataset with
          pool := p
          name := newName
          mountPoint := env.mount newName }
        .ok { ctx with
          sys := s1
          tr := ctx.tr ++ t1
          info := { ctx.info with dataset := ds2 }
          confChanged := true }

/-- New dataset name computed by the rename branch of modify_share
(smb_zfs.py lines 506-509): the parent path of the current dataset joined
with the lower-cased new share name. -/
def msNewDsName (current nm : String) : String :=
  String.intercalate "/" ((splitOnChar '/' current).dropLast) ++ "/" ++ toLowerStr nm

/-- Share-rename branch of modify_share (smb_zfs.py lines 505-519): rename
the dataset, re-key the store record under the new share name (with a save),
then delete the old key (saving again when something was removed). -/
def msRenameStep (env : Env) (a : ModifyShareArgs) (origShareName : String)
    (ctx : MsCtx) : Except (PyErr × MsCtx) MsCtx :=
  match a.name with
  | none => .ok ctx
  | some nm =>
    let newShareName := toLowerStr nm
    let current := ctx.info.dataset.name
    let newDsName := msNewDsName current nm
    match zfsRenameDataset env ctx.sys current newDsName with
    | (.error e, s1, t1) => .error (e, { ctx with sys := s1, tr := ctx.tr ++ t1 })
    | (.ok _, s1, t1) =>
      let ds2 := { ctx.info.dataset with
        name := newDsName
        mountPoint := env.mount newDsName }
      let info2 := { ctx.info with dataset := ds2 }
      let data1 := { ctx.sm.data with shares := setAssoc ctx.sm.data.shares newShareName info2 }
      let sm1 := smSave { ctx.sm with data := data1 }
      let info3 := (data1.shares.lookup newShareName).getD info2
      let removed := (data1.shares.lookup origShareName).isSome
      let data2 := { data1 with shares := delAssoc data1.shares origShareName }
      let sm2 := if removed then smSave { sm1 with data := data2 }
                 else { sm1 with data := data2 }
      .ok { ctx with
        sys := s1
        sm := sm2
        info := info3
        shareName := newShareName
        confChanged := true
        tr := ctx.tr ++ t1 }

/-- Quota branch of modify_share (smb_zfs.py lines 522-525): the record is
updated before `zfs set` runs. -/
def msQuotaStep (env : Env) (a : ModifyShareArgs) (ctx : MsCtx) :
    Except (PyErr × MsCtx) MsCtx :=
  match a.quota with
  | none => .ok ctx
  | some q =>
    let newQuota := if toLowerStr q = "none" then "none" else q
    let info2 := { ctx.info with dataset := { ctx.info.dataset with quota := some newQuota } }
    match zfsSetQuota env ctx.sys info2.dataset.name newQuota with
    | (.error e, s1, t1) => .error (e, { ctx with sys := s1, info := info2, tr := ctx.tr ++ t1 })
    | (.ok _, s1, t1) => .ok { ctx with sys := s1, info := info2, tr := ctx.tr ++ t1 }

/-- Owner / group / permissions branch of modify_share (smb_zfs.py lines
528-550), followed by chown/chmod when any of the three was supplied. -/
def msSystemStep (_env : Env) (a : ModifyShareArgs) (ctx : MsCtx) :
    Except (PyErr × MsCtx) MsCtx :=
  match
    (match a.owner with
     | none => .ok (ctx.info, false)
     | some o =>
       if sysUserExists ctx.sys o then
         .ok ({ ctx.info with system := { ctx.info.system with owner := o } }, true)
       else .error (PyErr.stateItemNotFoundError "user" o) :
     Except PyErr (ShareRec × Bool)) with
  | .error e => .error (e, ctx)
  | .ok (info1, ch1) =>
    match
      (match a.group with
       | none => .ok (info1, ch1)
       | some g =>
         if sysGroupExists ctx.sys g then
           .ok ({ info1 with system := { info1.system with group := g } }, true)
         else .error (PyErr.stateItemNotFoundError "group" g) :
       Except PyErr (ShareRec × Bool)) with
    | .error e => .error (e, { ctx with info := info1 })
    | .ok (info2, ch2) =>
      match
        (match a.permissions with
         | none => .ok (info2, ch2)
         | some p =>
           if permsOk p then
             .ok ({ info2 with system := { info2.system with permissions := p } }, true)
           else .error (PyErr.invalidNameError ("Permissions " ++ p ++ " are invalid.")) :
         Except PyErr (ShareRec × Bool)) with
      | .error e => .error (e, { ctx with info := info2 })
      | .ok (info3, ch3) =>
        if ch3 then
          let mp := info3.dataset.mountPoint
          .ok { ctx with info := info3, tr := ctx.tr ++ [Ev.chownEv mp, Ev.chmodEv mp] }
        else .ok { ctx with info := info3 }

/-- Samba-field branch of modify_share (smb_zfs.py lines 553-571): comment,
valid_users (validated against the OS), read_only, browseable. -/
def msSmbStep (a : ModifyShareArgs) (ctx : MsCtx) : Except (PyErr × MsCtx) MsCtx :=
  let ctx1 :=
    match a.comment with
    | none => ctx
    | some c =>
      { ctx with
        info := { ctx.info with smbConfig := { ctx.info.smbConfig with comment := c } }
        confChanged := true }
  match a.validUsers with
  | some vu =>
    match checkValidUsers ctx1.sys (splitOnChar ',' (removeSpaces vu)) with
    | .error e => .error (e, ctx1)
    | .ok _ =>
      let ctx2 := { ctx1 with
        info := { ctx1.info with smbConfig := { ctx1.info.smbConfig with validUsers := vu } }
        confChanged := true }
      .ok (msSmbBools a ctx2)
  | none => .ok (msSmbBools a ctx1)
where
  /-- read_only / browseable updates (smb_zfs.py lines 566-571). -/
  msSmbBools (a : ModifyShareArgs) (c : MsCtx) : MsCtx :=
    let c1 :=
      match a.readOnly with
      | none => c
      | some b =>
        { c with
          info := { c.info with smbConfig := { c.info.smbConfig with readOnly := b } }
          confChanged := true }
    match a.browseable with
    | none => c1
    | some b =>
      { c1 with
        info := { c1.info with smbConfig := { c1.info.smbConfig with browseable := b } }
        confChanged := true }

/-- Final persist and config-reload step of modify_share (smb_zfs.py lines
573-579). -/
def msFinishStep (env : Env) (origShareName : String) (ctx : MsCtx) :
    Except (PyErr × MsCtx) MsCtx :=
  let data1 := { ctx.sm.data with shares := setAssoc ctx.sm.data.shares ctx.shareName ctx.info }
  let ctx1 := { ctx with sm := smSave { ctx.sm with data := data1 } }
  if ctx1.confChanged then
    let ctx2 := { ctx1 with tr := ctx1.tr ++
      [Ev.confRemoveShare origShareName, Ev.confAddShare ctx1.shareName] }
    match testSambaConfig env ctx2.sys with
    | (.error e, s1, t1) => .error (e, { ctx2 with sys := s1, tr := ctx2.tr ++ t1 })
    | (.ok _, s1, t1) =>
      match reloadSamba env s1 with
      | (.error e, s2, t2) => .error (e, { ctx2 with sys := s2, tr := ctx2.tr ++ t1 ++ t2 })
      | (.ok _, s2, t2) => .ok { ctx2 with sys := s2, tr := ctx2.tr ++ t1 ++ t2 }
  else .ok ctx1

/-- SmbZfsManager.modify_share (smb_zfs.py lines 475-587).  On any exception
inside the try block the state file is restored to the pre-call snapshot and
saved, and the original error re-raised; nothing on the filesystem side
(moves, renames, chmod) is undone, the code prints that filesystem changes
might need manual rollback. -/
def modifyShare (env : Env) (m : MState) (shareName : String) (a : ModifyShareArgs) :
    Except PyErr StoreData × MState × List Ev :=
  if !m.sm.data.initialized then (.error .notInitializedError, m, [])
  else
    let orig := m.sm.data
    match m.sm.data.shares.lookup shareName with
    | none => (.error (.stateItemNotFoundError "share" shareName), m, [])
    | some shareInfo =>
      let ctx0 : MsCtx :=
        { sys := m.sys, sm := m.sm, shareName := shareName, info := shareInfo,
          confChanged := false, tr := [] }
      let run : Except (PyErr × MsCtx) MsCtx := do
        let c1 ← msPoolStep env a ctx0
        let c2 ← msRenameStep env a shareName c1
        let c3 ← msQuotaStep env a c2
        let c4 ← msSystemStep env a c3
        let c5 ← msSmbStep a c4
        msFinishStep env shareName c5
      match run with
      | .error (e, c) =>
        (.error e, { sys := c.sys, sm := { data := orig, persisted := orig } }, c.tr)
      | .ok c =>
        (.ok c.sm.data, { sys := c.sys, sm := c.sm }, c.tr)

/-- Python `s.replace(pat, rep, 1)`: replace the first occurrence only
(with the CPython convention for an empty pattern). -/
def replaceFirst (s pat rep : String) : String :=
  if pat = "" then rep ++ s
  else
    match s.splitOn pat with
    | [] => s
    | [x] => x
    | x :: rest => x ++ rep ++ String.intercalate pat rest

/-- Ascending insertion into a sorted list of strings. -/
def insertStr (x : String) : List String → List String
  | [] => [x]
  | y :: t => if x < y then x :: y :: t else y :: insertStr x t

/-- Insertion sort on strings. -/
def sortStrings (l : List String) : List String := l.foldr insertStr []

/-- Python `sorted(list(set(l)))`. -/
def sortedSet (l : List String) : List String := sortStrings l.dedup

/-- Sparse update arguments of modify_setup (smb_zfs.py lines 590-597). -/
structure ModifySetupArgs where
  primaryPool : Option String := none
  addSecondaryPools : Option (List String) := none
  removeSecondaryPools : Option (List String) := none
  serverName : Option String := none
  workgroup : Option String := none
  macosOptimized : Option Bool := none
  defaultHomeQuota : Option String := none
  deriving DecidableEq, Repr

/-- User-dataset migration loop of modify_setup (smb_zfs.py lines 613-622):
every user record is migrated to the new primary pool; a record without a
`dataset` key raises `KeyError`, and each successful move rewrites the
record (renaming the pool prefix with `str.replace(old, new, 1)`) and saves
it. -/
def msuUsersLoop (env : Env) (oldPool : Option String) (pp : String) :
    List (String × UserRec) → Sys → SM → Except PyErr Unit × Sys × SM × List Ev
  | [], s, sm => (.ok (), s, sm, [])
  | (uname, uinfo) :: rest, s, sm =>
    match uinfo.dataset with
    | none => (.error (.keyError "dataset"), s, sm, [])
    | some ds =>
      match moveDataset env s ds.name pp with
      | (.error e, s1, t1) => (.error e, s1, sm, t1)
      | (.ok _, s1, t1) =>
        let newName := replaceFirst ds.name (optStr oldPool) pp
        let ds2 := { ds with
          name := newName
          mountPoint := env.mount newName
          pool := pp }
        let uinfo2 := { uinfo with dataset := some ds2 }
        let sm1 := smSave { sm with
          data := { sm.data with users := setAssoc sm.data.users uname uinfo2 } }
        match msuUsersLoop env oldPool pp rest s1 sm1 with
        | (r, s2, sm2, t2) => (r, s2, sm2, t1 ++ t2)

/-- Share migration loop of modify_setup (smb_zfs.py lines 625-637): shares
whose pool is the old primary pool are moved to the new one. -/
def msuSharesLoop (env : Env) (oldPool : Option String) (pp : String) :
    List (String × ShareRec) → Sys → SM → Except PyErr Unit × Sys × SM × List Ev
  | [], s, sm => (.ok (), s, sm, [])
  | (sname, sinfo) :: rest, s, sm =>
    if oldPool = some sinfo.dataset.pool then
      let oldName := sinfo.dataset.name
      let pathInPool := String.intercalate "/" ((splitOnChar '/' oldName).drop 1)
      match moveDataset env s oldName pp with
      | (.error e, s1, t1) => (.error e, s1, sm, t1)
      | (.ok _, s1, t1) =>
        let newName := pp ++ "/" ++ pathInPool
        let ds2 := { sinfo.dataset with
          name := newName
          mountPoint := env.mount newName
          pool := pp }
        let sinfo2 := { sinfo with dataset := ds2 }
        let sm1 := smSave { sm with
          data := { sm.data with shares := setAssoc sm.data.shares sname sinfo2 } }
        match msuSharesLoop env oldPool pp rest s1 sm1 with
        | (r, s2, sm2, t2) => (r, s2, sm2, t1 ++ t2)
    else
      msuSharesLoop env oldPool pp rest s sm

/-- Primary-pool block of modify_setup (smb_zfs.py lines 606-640). -/
def msuPrimaryBlock (env : Env) (pPool : Option String) (s : Sys) (sm : SM) :
    Except PyErr Unit × Sys × SM × Bool × List Ev :=
  match pPool with
  | none => (.ok (), s, sm, false, [])
  | some pp =>
    if some pp = sm.data.primaryPool then (.ok (), s, sm, false, [])
    else if !env.pools.contains pp then
      (.error (.stateItemNotFoundError "ZFS pool" pp), s, sm, false, [])
    else
      let oldPool := sm.data.primaryPool
      match msuUsersLoop env oldPool pp sm.data.users s sm with
      | (.error e, s1, sm1, t1) => (.error e, s1, sm1, false, t1)
      | (.ok _, s1, sm1, t1) =>
        match msuSharesLoop env oldPool pp sm1.data.shares s1 sm1 with
        | (.error e, s2, sm2, t2) => (.error e, s2, sm2, false, t1 ++ t2)
        | (.ok _, s2, sm2, t2) =>
          let sm3 := smSave { sm2 with data := { sm2.data with primaryPool := some pp } }
          (.ok (), s2, sm3, true, t1 ++ t2)

/-- First pool of the list that `zpool list` does not report. -/
def firstMissingPool (env : Env) : List String → Option String
  | [] => none
  | p :: rest => if env.pools.contains p then firstMissingPool env rest else some p

/-- Secondary-pool addition block of modify_setup (smb_zfs.py lines
642-648): every pool must exist, then the sorted deduplicated union is
stored. -/
def msuAddBlock (env : Env) (addPools : List String) (sm : SM) : Except PyErr SM :=
  if addPools = [] then .ok sm
  else
    match firstMissingPool env addPools with
    | some p => .error (.stateItemNotFoundError "ZFS pool" p)
    | none =>
      .ok (smSave { sm with
        data := { sm.data with
          secondaryPools := sortedSet (sm.data.secondaryPools ++ addPools) } })

/-- Secondary-pool removal block of modify_setup (smb_zfs.py lines 650-660):
rejected outright when any share record still targets a pool being removed,
otherwise the difference is stored. -/
def msuRemoveBlock (removePools : List String) (sm : SM) : Except PyErr SM :=
  if removePools = [] then .ok sm
  else
    match sm.data.shares.find? (fun p => removePools.contains p.2.dataset.pool) with
    | some pr =>
      .error (.smbZfsError ("Cannot remove pool " ++ pr.2.dataset.pool ++
        " as it is used by share " ++ pr.1 ++ "."))
    | none =>
      .ok (smSave { sm with
        data := { sm.data with
          secondaryPools := sortedSet
            (sm.data.secondaryPools.filter (fun p => !(removePools.contains p))) } })

/-- Scalar-field block of modify_setup (smb_zfs.py lines 663-674): server
name, workgroup, macOS flag and default home quota, each saving and marking
the config dirty when supplied; a default quota spelled "none" in any case
is normalized to the literal "none". -/
def msuSimpleBlock (a : ModifySetupArgs) (sm : SM) : SM × Bool :=
  let (sm1, f1) :=
    match a.serverName with
    | some v => (smSave { sm with data := { sm.data with serverName := some v } }, true)
    | none => (sm, false)
  let (sm2, f2) :=
    match a.workgroup with
    | some v => (smSave { sm1 with data := { sm1.data with workgroup := some v } }, true)
    | none => (sm1, false)
  let (sm3, f3) :=
    match a.macosOptimized with
    | some b => (smSave { sm2 with data := { sm2.data with macosOptimized := b } }, true)
    | none => (sm2, false)
  let (sm4, f4) :=
    match a.defaultHomeQuota with
    | some v =>
      let v2 := if toLowerStr v = "none" then "none" else v
      (smSave { sm3 with data := { sm3.data with defaultHomeQuota := some v2 } }, true)
    | none => (sm3, false)
  (sm4, f1 || f2 || f3 || f4)

/-- Config-regeneration block of modify_setup (smb_zfs.py lines 676-688):
rewrite the global smb.conf, re-insert every share stanza (note this uses
the manager-level `list_items`, whose quota-display overwrite mutates the
store records), then validate and reload. -/
def msuConfigBlock (env : Env) (s : Sys) (sm : SM) :
    Except PyErr Unit × Sys × SM × List Ev :=
  let tr0 := [Ev.confCreateSmb]
  match listItemsShares { sys := s, sm := sm } with
  | (.error e, m1) => (.error e, m1.sys, m1.sm, tr0)
  | (.ok items, m1) =>
    let tr1 := tr0 ++ items.map (fun p => Ev.confAddShare p.1)
    match testSambaConfig env m1.sys with
    | (.error e, s2, t2) => (.error e, s2, m1.sm, tr1 ++ t2)
    | (.ok _, s2, t2) =>
      match reloadSamba env s2 with
      | (.error e, s3, t3) => (.error e, s3, m1.sm, tr1 ++ t2 ++ t3)
      | (.ok _, s3, t3) => (.ok (), s3, m1.sm, tr1 ++ t2 ++ t3)

/-- SmbZfsManager.modify_setup (smb_zfs.py lines 589-697): primary-pool
migration, secondary-pool addition/removal, scalar updates, config
regeneration; on any exception the state file is restored to the pre-call
snapshot and saved, and the error re-raised. -/
def modifySetup (env : Env) (m : MState) (a : ModifySetupArgs) :
    Except PyErr StoreData × MState × List Ev :=
  if !m.sm.data.initialized then (.error .notInitializedError, m, [])
  else
    let orig := m.sm.data
    let restore := fun (s : Sys) (e : PyErr) (tr : List Ev) =>
      ((.error e : Except PyErr StoreData),
        ({ sys := s, sm := { data := orig, persisted := orig } } : MState), tr)
    match msuPrimaryBlock env a.primaryPool m.sys m.sm with
    | (.error e, s1, _, _, t1) => restore s1 e t1
    | (.ok _, s1, sm1, cfg1, t1) =>
      match msuAddBlock env (a.addSecondaryPools.getD []) sm1 with
      | .error e => restore s1 e t1
      | .ok sm2 =>
        match msuRemoveBlock (a.removeSecondaryPools.getD []) sm2 with
        | .error e => restore s1 e t1
        | .ok sm3 =>
          let (sm4, cfg2) := msuSimpleBlock a sm3
          if cfg1 || cfg2 then
            match msuConfigBlock env s1 sm4 with
            | (.error e, s2, _, t4) => restore s2 e (t1 ++ t4)
            | (.ok _, s2, sm5, t4) =>
              (.ok sm5.data, { sys := s2, sm := sm5 }, t1 ++ t4)
          else
            (.ok sm4.data, { sys := s1, sm := sm4 }, t1)

theorem mem_foldl_insertStep (l : List String) (acc : List String) (x : String)
    (h : x ∈ acc) :
    x ∈ l.foldl (fun acc p => if acc.contains p then acc else p :: acc) acc := by
  induction l generalizing acc with
  | nil => simpa using h
  | cons p t ih =>
    simp only [List.foldl_cons]
    by_cases hc : acc.contains p
    · rw [if_pos hc]; exact ih acc h
    · rw [if_neg hc]; exact ih (p :: acc) (List.mem_cons_of_mem _ h)

theorem mem_insertMissingPrefixes (ds : List String) (d x : String) (h : x ∈ ds) :
    x ∈ insertMissingPrefixes ds d :=
  mem_foldl_insertStep _ _ _ h

theorem moveCreateParents_events (env : Env) (comps : List String) :
    ∀ (accPath : String) (s : Sys),
      ∀ e ∈ (moveCreateParents env accPath comps s).2.2, ∃ d, e = Ev.zfsCreate d := by
  induction comps with
  | nil => intro accPath s e he; simp [moveCreateParents] at he
  | cons c rest ih =>
    intro accPath s e he
    by_cases hok : env.cmdOk (Ev.zfsCreate (accPath ++ "/" ++ c))
    · simp only [moveCreateParents, zfsCreateDataset, hok, if_true] at he
      rcases List.mem_append.mp he with h1 | h2
      · exact ⟨_, List.mem_singleton.mp h1⟩
      · exact ih _ _ e h2
    · simp only [moveCreateParents, zfsCreateDataset, hok, if_false] at he
      exact ⟨_, List.mem_singleton.mp he⟩

theorem moveCreateParents_datasets (env : Env) (comps : List String) :
    ∀ (accPath : String) (s : Sys) (x : String), x ∈ s.datasets →
      x ∈ (moveCreateParents env accPath comps s).2.1.datasets := by
  induction comps with
  | nil => intro accPath s x hx; simpa [moveCreateParents] using hx
  | cons c rest ih =>
    intro accPath s x hx
    by_cases hok : env.cmdOk (Ev.zfsCreate (accPath ++ "/" ++ c))
    · simp only [moveCreateParents, zfsCreateDataset, hok, if_true]
      exact ih _ _ x (mem_insertMissingPrefixes _ _ _ hx)
    · simpa [moveCreateParents, zfsCreateDataset, hok] using hx

theorem takeWhile_append_all {α : Type} (p : α → Bool) (xs ys : List α)
    (h : ∀ x ∈ xs, p x = true) :
    (xs ++ ys).takeWhile p = xs ++ ys.takeWhile p := by
  induction xs with
  | nil => simp
  | cons a t ih =>
    have ha : p a = true := h a (by simp)
    have ht : ∀ x ∈ t, p x = true := fun x hx => h x (by simp [hx])
    simp [List.takeWhile_cons, ha, ih ht]

theorem mem_of_mem_takeWhileB {α : Type} (p : α → Bool) (l : List α) (x : α)
    (h : x ∈ l.takeWhile p) : x ∈ l := by
  induction l with
  | nil => simp at h
  | cons a t ih =>
    rw [List.takeWhile_cons] at h
    by_cases hp : p a
    · rw [if_pos hp] at h
      rcases List.mem_cons.mp h with h1 | h2
      · exact h1 ▸ List.mem_cons_self a t
      · exact List.mem_cons_of_mem _ (ih h2)
    · rw [if_neg hp] at h
      simp at h

theorem moveCleanup_events (env : Env) (s : Sys) (destDs srcSnap : String) :
    ∀ e ∈ (moveCleanup env s destDs srcSnap).2,
      e = Ev.zfsDestroyR destDs ∨ e = Ev.zfsDestroySnap srcSnap := by
  intro e he
  simp only [moveCleanup] at he
  repeat' split at he
  all_goals first
    | (simp at he; tauto)
    | simp at he


theorem moveVerifyPhase_guard (env : Env) (path newPool : String) (s1 : Sys) (t1 : List Ev)
    (hnotT1 : Ev.zfsDestroyR path ∉ t1)
    (hallp : ∀ x ∈ t1,
      (x != Ev.zfsSendRecv (moveSourceSnap env path) (moveDestDataset path newPool)) = true)
    (hne : moveDestDataset path newPool ≠ path) :
    (Ev.zfsDestroyR path ∈ (moveVerifyPhase env path newPool s1 t1).2.2 →
      env.guid (moveSourceSnap env path) ≠ "0" ∧
      env.guid (moveDestSnap env path newPool) ≠ "0" ∧
      env.guid (moveSourceSnap env path) = env.guid (moveDestSnap env path newPool)) ∧
    Ev.zfsDestroyR path ∉
      (moveVerifyPhase env path newPool s1 t1).2.2.takeWhile
        (fun e => e != Ev.zfsSendRecv (moveSourceSnap env path) (moveDestDataset path newPool)) := by
  unfold moveVerifyPhase
  split
  next hguidbad =>
    split
    next s4 t4 heq2 =>
    have hcl := moveCleanup_events env (moveRecvState env path newPool s1)
      (moveDestDataset path newPool) (moveSourceSnap env path)
    rw [heq2] at hcl
    have hnotAll : Ev.zfsDestroyR path ∉
        t1 ++ [Ev.zfsSnapshot (moveSourceSnap env path),
          Ev.zfsSendRecv (moveSourceSnap env path) (moveDestDataset path newPool)] ++ t4 := by
      intro hmem
      rcases List.mem_append.mp hmem with h1 | h2
      · rcases List.mem_append.mp h1 with h3 | h4
        · exact hnotT1 h3
        · simp at h4
      · rcases hcl _ h2 with h5 | h5
        · injection h5 with h6
          exact hne h6.symm
        · simp at h5
    exact ⟨fun h => absurd h hnotAll, fun h => hnotAll (mem_of_mem_takeWhileB _ _ _ h)⟩
  next hguidok =>
    push_neg at hguidok
    obtain ⟨hg1, hg2, hg3⟩ := hguidok
    have hTW : ∀ (rest : List Ev),
        (t1 ++ (Ev.zfsSnapshot (moveSourceSnap env path) ::
          Ev.zfsSendRecv (moveSourceSnap env path) (moveDestDataset path newPool) :: rest)).takeWhile
          (fun e => e != Ev.zfsSendRecv (moveSourceSnap env path) (moveDestDataset path newPool)) =
        t1 ++ [Ev.zfsSnapshot (moveSourceSnap env path)] := by
      intro rest
      rw [takeWhile_append_all _ t1 _ hallp]
      simp [List.takeWhile_cons, bne_iff_ne]
    have hnotTW : Ev.zfsDestroyR path ∉ t1 ++ [Ev.zfsSnapshot (moveSourceSnap env path)] := by
      intro hmem
      rcases List.mem_append.mp hmem with h1 | h2
      · exact hnotT1 h1
      · simp at h2
    split
    next hdfail =>
      refine ⟨fun _ => ⟨hg1, hg2, hg3⟩, fun h => ?_⟩
      rw [hTW [Ev.zfsDestroyR path]] at h
      exact hnotTW h
    next hdok =>
    split
    next hdsfail =>
      refine ⟨fun _ => ⟨hg1, hg2, hg3⟩, fun h => ?_⟩
      rw [hTW [Ev.zfsDestroyR path, Ev.zfsDestroySnap (moveDestSnap env path newPool)]] at h
      exact hnotTW h
    next hdsok =>
      refine ⟨fun _ => ⟨hg1, hg2, hg3⟩, fun h => ?_⟩
      rw [hTW [Ev.zfsDestroyR path, Ev.zfsDestroySnap (moveDestSnap env path newPool)]] at h
      exact hnotTW h

/-- C1: in `Zfs.move_dataset`, a recursive destroy of the source dataset
appears in the command trace only if, at verification time, the guid
property of the source snapshot and of the destination snapshot are equal
and neither reads as the sentinel "0" (the value `_get_zfs_property`
reports when the property cannot be read); and it never appears before the
send/receive command of the migration in the trace. -/
theorem move_dataset_guid_guard (env : Env) (s : Sys) (path newPool : String) :
    (Ev.zfsDestroyR path ∈ (moveDataset env s path newPool).2.2 →
      env.guid (moveSourceSnap env path) ≠ "0" ∧
      env.guid (moveDestSnap env path newPool) ≠ "0" ∧
      env.guid (moveSourceSnap env path) = env.guid (moveDestSnap env path newPool)) ∧
    Ev.zfsDestroyR path ∉
      (moveDataset env s path newPool).2.2.takeWhile
        (fun e => e != Ev.zfsSendRecv (moveSourceSnap env path) (moveDestDataset path newPool)) := by
  unfold moveDataset
  split
  · exact ⟨fun h => by simp at h, by simp⟩
  split
  · exact ⟨fun h => by simp at h, by simp⟩
  split
  · exact ⟨fun h => by simp at h, by simp⟩
  next hsrc hpool hspace =>
  have hpathmem : path ∈ s.datasets := by
    simp only [Bool.not_eq_true, Bool.not_eq_false] at hsrc
    simpa [dsExists] using hsrc
  split
  next e s1 t1 heq =>
    have hev : ∀ e2 ∈ t1, ∃ d, e2 = Ev.zfsCreate d := by
      have h2 := moveCreateParents_events env ((splitOnChar '/' path).drop 1).dropLast newPool s
      rw [heq] at h2
      exact h2
    have hnot : Ev.zfsDestroyR path ∉ t1 := by
      intro hmem
      rcases hev _ hmem with ⟨d, hd⟩
      simp at hd
    exact ⟨fun h => absurd h hnot, fun h => hnot (mem_of_mem_takeWhileB _ _ _ h)⟩
  next u s1 t1 heq =>
    have hev : ∀ e2 ∈ t1, ∃ d, e2 = Ev.zfsCreate d := by
      have h2 := moveCreateParents_events env ((splitOnChar '/' path).drop 1).dropLast newPool s
      rw [heq] at h2
      exact h2
    have hnotT1 : Ev.zfsDestroyR path ∉ t1 := by
      intro hmem
      rcases hev _ hmem with ⟨d, hd⟩
      simp at hd
    have hs1mem : path ∈ s1.datasets := by
      have h3 := moveCreateParents_datasets env ((splitOnChar '/' path).drop 1).dropLast newPool s path hpathmem
      rw [heq] at h3
      exact h3
    have hallp : ∀ x ∈ t1,
        (x != Ev.zfsSendRecv (moveSourceSnap env path) (moveDestDataset path newPool)) = true := by
      intro x hx
      rcases hev x hx with ⟨d, hd⟩
      subst hd
      simp [bne_iff_ne]
    split
    · exact ⟨fun h => absurd h hnotT1, fun h => hnotT1 (mem_of_mem_takeWhileB _ _ _ h)⟩
    next hdest =>
    have hne : moveDestDataset path newPool ≠ path := by
      intro hEq
      simp only [dsExists, Bool.not_eq_true] at hdest
      rw [hEq] at hdest
      simp at hdest
      exact hdest hs1mem
    split
    next hsnapfail =>
      refine ⟨fun h => ?_, fun h => ?_⟩
      · rcases List.mem_append.mp h with h1 | h2
        · exact absurd h1 hnotT1
        · simp at h2
      · rcases List.mem_append.mp (mem_of_mem_takeWhileB _ _ _ h) with h1 | h2
        · exact hnotT1 h1
        · simp at h2
    next hsnapok =>
    split
    next hsendfail =>
      refine ⟨fun h => ?_, fun h => ?_⟩
      · rcases List.mem_append.mp h with h1 | h2
        · exact absurd h1 hnotT1
        · simp at h2
      · rcases List.mem_append.mp (mem_of_mem_takeWhileB _ _ _ h) with h1 | h2
        · exact hnotT1 h1
        · simp at h2
    next hsendok =>
      exact moveVerifyPhase_guard env path newPool s1 t1 hnotT1 hallp hne

/-- Decidable equality for `Except` results, used to evaluate concrete
runs. -/
instance {α β : Type} [DecidableEq α] [DecidableEq β] : DecidableEq (Except α β) := fun a b =>
  match a, b with
  | .ok x, .ok y => if h : x = y then isTrue (by rw [h]) else isFalse (by simp [h])
  | .error x, .error y => if h : x = y then isTrue (by rw [h]) else isFalse (by simp [h])
  | .ok _, .error _ => isFalse (by simp)
  | .error _, .ok _ => isFalse (by simp)

/-- Small concrete ZFS world used by the migration examples: pools `tank`
and `arch`, with the dataset `tank/homes/bob` to be moved. -/
def mvSys : Sys :=
  { osUsers := [], osGroups := [], sambaUsers := [], membership := [],
    datasets := ["tank", "tank/homes", "tank/homes/bob", "arch"],
    snapshots := [], quotas := [] }

/-- Oracle world where every command succeeds and both migration snapshots
report the same nonzero guid. -/
def mvEnvOk : Env :=
  { mount := fun d => "/" ++ d, nowEpoch := 42, nowIso := "t0",
    usedBytes := fun _ => 5, availBytes := fun _ => 100,
    guid := fun _ => "77", pools := ["tank", "arch"], cmdOk := fun _ => true }

/-- Variant of `mvEnvOk` with insufficient space on the destination. -/
def mvEnvNoSpace : Env :=
  { mvEnvOk with usedBytes := fun _ => 10, availBytes := fun _ => 5 }

/-- Variant of `mvEnvOk` where the `zfs send | zfs recv` pipe fails. -/
def mvEnvSendFail : Env :=
  { mvEnvOk with cmdOk := fun e =>
      match e with
      | .zfsSendRecv _ _ => false
      | _ => true }

theorem move_dataset_guid_guard_witness :
    mvEnvOk.guid (moveSourceSnap mvEnvOk "tank/homes/bob") ≠ "0" ∧
    mvEnvOk.guid (moveDestSnap mvEnvOk "tank/homes/bob" "arch") ≠ "0" ∧
    mvEnvOk.guid (moveSourceSnap mvEnvOk "tank/homes/bob") =
      mvEnvOk.guid (moveDestSnap mvEnvOk "tank/homes/bob" "arch") :=
  (move_dataset_guid_guard mvEnvOk mvSys "tank/homes/bob" "arch").1 (by decide)

/-- C4: when the `used` bytes of the source exceed the `available` bytes of
the destination pool, `move_dataset` raises the insufficient-space error
(`ZfsCmdError`, the spec taxonomy name is `InsufficientSpaceError`) before
any command runs: no snapshot, no send/receive, no destroy, world
unchanged. -/
theorem move_dataset_insufficient_space (env : Env) (s : Sys) (path newPool : String)
    (hsrc : dsExists s path = true) (hdst : dsExists s newPool = true)
    (hspace : env.usedBytes path > env.availBytes newPool) :
    moveDataset env s path newPool =
      (.error (.zfsCmdError "not enough space on destination pool"), s, []) := by
  simp [moveDataset, hsrc, hdst, hspace]

theorem move_dataset_insufficient_space_witness :
    dsExists mvSys "tank/homes/bob" = true ∧ dsExists mvSys "arch" = true ∧
    mvEnvNoSpace.usedBytes "tank/homes/bob" > mvEnvNoSpace.availBytes "arch" ∧
    moveDataset mvEnvNoSpace mvSys "tank/homes/bob" "arch" =
      (.error (.zfsCmdError "not enough space on destination pool"), mvSys, []) :=
  ⟨by decide, by decide, by decide,
    move_dataset_insufficient_space mvEnvNoSpace mvSys "tank/homes/bob" "arch"
      (by decide) (by decide) (by decide)⟩

/-- C3 failing input: `tank/homes/bob` moves to pool `arch`, the snapshot
command succeeds, the `zfs send | zfs recv` pipe fails.  The raised error is
the base `SmbZfsError` from `System._run`, which the
`except (CalledProcessError, ZfsCmdError)` handler does not catch: no
best-effort destroy of the partial destination or of the dangling source
snapshot runs (the trace contains no destroy command at all), the dangling
snapshot survives in the final world, and the rolled-back `MoveFailedError`
of steps 4-6 is never raised. -/
theorem move_dataset_cmd_failure_no_cleanup :
    (moveDataset mvEnvSendFail mvSys "tank/homes/bob" "arch").1 =
        .error (.smbZfsError "zfs send recv pipe failed") ∧
    PyErr.caughtByMoveHandler (.smbZfsError "zfs send recv pipe failed") = false ∧
    ((moveDataset mvEnvSendFail mvSys "tank/homes/bob" "arch").2.2.all
      (fun e => match e with
        | .zfsDestroyR _ => false
        | .zfsDestroySnap _ => false
        | _ => true)) = true ∧
    snapExists (moveDataset mvEnvSendFail mvSys "tank/homes/bob" "arch").2.1
      "tank/homes/bob@moving_42" = true ∧
    dsExists (moveDataset mvEnvSendFail mvSys "tank/homes/bob" "arch").2.1
      "tank/homes/bob" = true ∧
    (moveDataset mvEnvSendFail mvSys "tank/homes/bob" "arch").1 ≠
        .error (.zfsCmdError "zfs move failed and has been rolled back") := by
  decide

theorem lookup_map_snd {α β : Type} (g : α → β) (l : List (String × α)) (u : String) :
    (l.map (fun p => (p.1, g p.2))).lookup u = (l.lookup u).map g := by
  induction l with
  | nil => rfl
  | cons a t ih =>
    simp only [List.map_cons, List.lookup]
    by_cases h : u = a.1
    · simp [h]
    · simp only [beq_eq_false_iff_ne.mpr h, ih]

/-- Baseline initialized global store used by the manager examples. -/
def baseStore : StoreData :=
  { initialized := true, primaryPool := some "tank", secondaryPools := [],
    serverName := some "srv", workgroup := some "WG", macosOptimized := false,
    defaultHomeQuota := none, users := [],
    groups := [("smb_users", { description := "Samba Users Group", members := [], created := "t0" })],
    shares := [] }

/-- Initialized world holding only the mandatory smb_users group. -/
def c7M : MState :=
  { sys :=
      { osUsers := []
        osGroups := ["smb_users"]
        sambaUsers := []
        membership := []
        datasets := ["tank", "tank/homes"]
        snapshots := []
        quotas := [] }
    sm := { data := baseStore, persisted := baseStore } }

/-- C7 evaluation: on any initialized store containing the smb_users group
record, `delete_group("smb_users")` raises the plain base `SmbZfsError`
(smb_zfs.py line 313) and leaves the whole world untouched; errors.py
defines `ImmutableError` for protected items but this raise site does not
use it. -/
theorem delete_group_smb_users_eval (env : Env) (m : MState)
    (hinit : m.sm.data.initialized = true)
    (hmem : (m.sm.data.groups.lookup "smb_users").isSome = true) :
    deleteGroup env m "smb_users" =
      (.error (.smbZfsError "Cannot delete the mandatory smb_users group."), m, []) ∧
    PyErr.isImmutableError (.smbZfsError "Cannot delete the mandatory smb_users group.") = false := by
  refine ⟨?_, rfl⟩
  simp [deleteGroup, hinit, hmem]

theorem delete_group_smb_users_eval_witness :
    c7M.sm.data.initialized = true ∧
    (c7M.sm.data.groups.lookup "smb_users").isSome = true ∧
    (deleteGroup mvEnvOk c7M "smb_users" =
      (.error (.smbZfsError "Cannot delete the mandatory smb_users group."), c7M, []) ∧
    PyErr.isImmutableError (.smbZfsError "Cannot delete the mandatory smb_users group.") = false) :=
  ⟨by decide, by decide, delete_group_smb_users_eval mvEnvOk c7M (by decide) (by decide)⟩

/-- C10: a user record stored without a `dataset` field (created with
`create_home=False`) makes `modify_home` raise Python's bare `KeyError`,
which is outside the `SmbZfsError` taxonomy, before any quota command or
store write: the whole world is returned unchanged. -/
theorem modify_home_no_dataset_keyerror (env : Env) (m : MState) (u : String)
    (q : Option String) (r : UserRec)
    (hinit : m.sm.data.initialized = true)
    (hlookup : m.sm.data.users.lookup u = some r)
    (hds : r.dataset = none) :
    modifyHome env m u q = (.error (.keyError "dataset"), m, []) ∧
    PyErr.isSmbZfsError (.keyError "dataset") = false := by
  refine ⟨?_, rfl⟩
  simp [modifyHome, hinit, hlookup, hds]

/-- User record without a home dataset. -/
def c10User : UserRec :=
  { shellAccess := false, groups := [], created := "t0", dataset := none }

/-- World with one homeless user `carol`. -/
def c10M : MState :=
  { c7M with sm :=
    { data := { baseStore with users := [("carol", c10User)] },
      persisted := { baseStore with users := [("carol", c10User)] } } }

theorem modify_home_no_dataset_keyerror_witness :
    c10M.sm.data.initialized = true ∧
    c10M.sm.data.users.lookup "carol" = some c10User ∧
    c10User.dataset = none ∧
    (modifyHome mvEnvOk c10M "carol" (some "10G") = (.error (.keyError "dataset"), c10M, []) ∧
      PyErr.isSmbZfsError (.keyError "dataset") = false) :=
  ⟨by decide, by decide, by decide,
    modify_home_no_dataset_keyerror mvEnvOk c10M "carol" (some "10G") c10User
      (by decide) (by decide) (by decide)⟩

/-- Stored dataset record of user alice, with quota field "10G". -/
def c6Ds : DatasetRec :=
  { name := "tank/homes/alice", mountPoint := "/tank/homes/alice",
    quota := some "10G", pool := "tank" }

/-- Stored user record of alice. -/
def c6User : UserRec :=
  { shellAccess := true, groups := [], created := "t0", dataset := some c6Ds }

/-- Stored dataset record of share docs, with quota field "5G". -/
def c6ShareDs : DatasetRec :=
  { name := "tank/shares/docs", mountPoint := "/tank/shares/docs",
    quota := some "5G", pool := "tank" }

/-- Stored share record docs. -/
def c6Share : ShareRec :=
  { dataset := c6ShareDs,
    smbConfig := { comment := "", browseable := true, readOnly := false, validUsers := "@smb_users" },
    system := { owner := "root", group := "smb_users", permissions := "0775" },
    created := "t0" }

/-- World where the live ZFS quotas (20G for the home, 7G for the share)
disagree with the stored quota fields (10G and 5G). -/
def c6Store : StoreData :=
  { baseStore with users := [("alice", c6User)], shares := [("docs", c6Share)] }

def c6M : MState :=
  { sys :=
      { osUsers := ["alice"]
        osGroups := ["smb_users"]
        sambaUsers := ["alice"]
        membership := [("alice", "smb_users")]
        datasets := ["tank", "tank/homes", "tank/homes/alice", "tank/shares", "tank/shares/docs"]
        snapshots := []
        quotas := [("tank/homes/alice", "20G"), ("tank/shares/docs", "7G")] }
    sm := { data := c6Store, persisted := c6Store } }

/-- C6 counterexample: `list_items("users")` does not use the live quota for
display only.  The returned dicts alias the state store, so the call
overwrites the quota field of the in-memory store record with the live
value (alice's stored "10G" becomes the live "20G"), and the very next
`save` (performed by any later persisting operation) writes that value into
the state file; only the file itself is untouched during the call. -/
theorem list_items_quota_writeback :
    ((listItemsUsers c6M).2.sm.data.users.lookup "alice") =
      some { c6User with dataset := some { c6Ds with quota := some "20G" } } ∧
    c6M.sm.data.users.lookup "alice" = some c6User ∧
    c6Ds.quota = some "10G" ∧
    ((smSave (listItemsUsers c6M).2.sm).persisted.users.lookup "alice") ≠ some c6User ∧
    (listItemsUsers c6M).2.sm.persisted = c6M.sm.persisted := by
  decide

/-- C6 as amended: the list_items call on users or shares never writes the
state file (the persisted copy is unchanged by the call), and the returned
list aliases the store, whose record quota fields now carry the live
display value. -/
theorem list_items_live_quota (m : MState) (u sn : String) (r : UserRec) (sr : ShareRec)
    (hinit : m.sm.data.initialized = true)
    (hu : m.sm.data.users.lookup u = some r)
    (hs : m.sm.data.shares.lookup sn = some sr) :
    (listItemsUsers m).2.sm.persisted = m.sm.persisted ∧
    (listItemsUsers m).2.sm.data.users.lookup u = some (userDisplayRec m.sys r) ∧
    (listItemsUsers m).1 = .ok ((listItemsUsers m).2.sm.data.users) ∧
    (listItemsShares m).2.sm.persisted = m.sm.persisted ∧
    (listItemsShares m).2.sm.data.shares.lookup sn = some (shareDisplayRec m.sys sr) ∧
    (listItemsShares m).1 = .ok ((listItemsShares m).2.sm.data.shares) := by
  refine ⟨?_, ?_, ?_, ?_, ?_, ?_⟩
  · simp [listItemsUsers, hinit]
  · simp [listItemsUsers, hinit, lookup_map_snd, hu]
  · simp [listItemsUsers, hinit]
  · simp [listItemsShares, hinit]
  · simp [listItemsShares, hinit, lookup_map_snd, hs]
  · simp [listItemsShares, hinit]

theorem list_items_live_quota_witness :
    ((listItemsUsers c6M).2.sm.persisted = c6M.sm.persisted ∧
    (listItemsUsers c6M).2.sm.data.users.lookup "alice" = some (userDisplayRec c6M.sys c6User) ∧
    (listItemsUsers c6M).1 = .ok ((listItemsUsers c6M).2.sm.data.users) ∧
    (listItemsShares c6M).2.sm.persisted = c6M.sm.persisted ∧
    (listItemsShares c6M).2.sm.data.shares.lookup "docs" = some (shareDisplayRec c6M.sys c6Share) ∧
    (listItemsShares c6M).1 = .ok ((listItemsShares c6M).2.sm.data.shares)) :=
  list_items_live_quota c6M "alice" "docs" c6User c6Share (by decide) (by decide) (by decide)

theorem pyRunMatch_of_all (cls : Char → Bool) (l : List Char) :
    ∀ n, (∀ c ∈ l, cls c = true) → l.length ≤ n → pyRunMatch cls n l = true := by
  induction l with
  | nil => intro n _ _; simp [pyRunMatch]
  | cons c t ih =>
    intro n hall hlen
    cases n with
    | zero => simp at hlen
    | succ m =>
      have h1 : cls c = true := hall c (List.mem_cons_self c t)
      have h2 : pyRunMatch cls m t = true :=
        ih m (fun x hx => hall x (List.mem_cons_of_mem _ hx)) (by simpa using Nat.lt_succ_iff.mp (Nat.lt_of_lt_of_le (Nat.lt_succ_self _) hlen))
      simp [pyRunMatch, h1, h2]

theorem char_eq_newline_of_toNat {c : Char} (h : c.toNat = 10) : c = '\n' := by
  have h1 : Char.ofNat c.toNat = c := Char.ofNat_toNat c
  rw [← h1, h]

theorem pyTailMatches_cases (l : List Char) (h : pyTailMatches l = true) :
    l = [] ∨ l = ['\n'] := by
  match l with
  | [] => exact Or.inl rfl
  | [c] =>
    simp only [pyTailMatches, decide_eq_true_eq] at h
    exact Or.inr (by rw [char_eq_newline_of_toNat h])
  | a :: b :: t => simp [pyTailMatches] at h

theorem pyRunMatch_chars (cls : Char → Bool) (l : List Char) :
    ∀ n, pyRunMatch cls n l = true → ∀ c ∈ l, cls c = true ∨ c = '\n' := by
  induction l with
  | nil => intro n _ c hc; simp at hc
  | cons a t ih =>
    intro n h c hc
    cases n with
    | zero =>
      rcases pyTailMatches_cases _ h with h1 | h1
      · simp at h1
      · rw [h1] at hc
        simp at hc
        exact Or.inr hc
    | succ m =>
      simp only [pyRunMatch, Bool.or_eq_true, Bool.and_eq_true] at h
      rcases h with h1 | ⟨h1, h2⟩
      · rcases pyTailMatches_cases _ h1 with h3 | h3
        · simp at h3
        · rw [h3] at hc
          simp at hc
          exact Or.inr hc
      · rcases List.mem_cons.mp hc with h3 | h3
        · exact Or.inl (h3 ▸ h1)
        · exact ih m h2 c h3

theorem pyRunMatch_length (cls : Char → Bool) (l : List Char) :
    ∀ n, pyRunMatch cls n l = true →
      l.length ≤ n ∨ (∃ pre, l = pre ++ ['\n'] ∧ pre.length ≤ n) := by
  induction l with
  | nil => intro n _; exact Or.inl (by simp)
  | cons a t ih =>
    intro n h
    cases n with
    | zero =>
      rcases pyTailMatches_cases _ h with h1 | h1
      · simp at h1
      · exact Or.inr ⟨[], by simpa using h1, by simp⟩
    | succ m =>
      simp only [pyRunMatch, Bool.or_eq_true, Bool.and_eq_true] at h
      rcases h with h1 | ⟨h1, h2⟩
      · rcases pyTailMatches_cases _ h1 with h3 | h3
        · simp at h3
        · exact Or.inr ⟨[], by simpa using h3, by simp⟩
      · rcases ih m h2 with h3 | ⟨pre, h4, h5⟩
        · exact Or.inl (by simpa using Nat.succ_le_succ h3)
        · exact Or.inr ⟨a :: pre, by rw [h4]; rfl, by simpa using Nat.succ_le_succ h5⟩

/-- Uppercase-ASCII test used to state the validation claim. -/
def hasUpperAscii (s : String) : Bool :=
  s.data.any (fun c => decide (65 ≤ c.toNat ∧ c.toNat ≤ 90))

/-- Leading-digit test used to state the validation claim. -/
def startsWithDigit (s : String) : Bool :=
  match s.data with
  | [] => false
  | c :: _ => decide (48 ≤ c.toNat ∧ c.toNat ≤ 57)

theorem upper_not_classFirst {c : Char} (h : 65 ≤ c.toNat ∧ c.toNat ≤ 90) :
    classFirstChar c = false := by
  simp only [classFirstChar, decide_eq_false_iff_not]
  omega

theorem upper_not_classRest {c : Char} (h : 65 ≤ c.toNat ∧ c.toNat ≤ 90) :
    classRestChar c = false := by
  simp only [classRestChar, decide_eq_false_iff_not]
  omega

theorem upper_ne_newline {c : Char} (h : 65 ≤ c.toNat ∧ c.toNat ≤ 90) : c ≠ '\n' := by
  intro hEq
  rw [hEq] at h
  simp at h

theorem digit_not_classFirst {c : Char} (h : 48 ≤ c.toNat ∧ c.toNat ≤ 57) :
    classFirstChar c = false := by
  simp only [classFirstChar, decide_eq_false_iff_not]
  omega

theorem pyMatchUserName_false_of_upper (s : String) (h : hasUpperAscii s = true) :
    pyMatchUserName s = false := by
  rcases List.any_eq_true.mp h with ⟨c, hc, hcup⟩
  rw [decide_eq_true_eq] at hcup
  cases hsd : s.data with
  | nil => rw [hsd] at hc; simp at hc
  | cons a t =>
    rw [hsd] at hc
    by_contra hmatch
    rw [Bool.not_eq_false] at hmatch
    simp only [pyMatchUserName, hsd, Bool.and_eq_true] at hmatch
    obtain ⟨h1, h2⟩ := hmatch
    rcases List.mem_cons.mp hc with h3 | h3
    · rw [← h3] at h1
      rw [upper_not_classFirst hcup] at h1
      exact Bool.false_ne_true h1
    · rcases pyRunMatch_chars classRestChar t 31 h2 c h3 with h4 | h4
      · rw [upper_not_classRest hcup] at h4
        exact Bool.false_ne_true h4
      · exact upper_ne_newline hcup h4

theorem pyMatchUserName_false_of_digit (s : String) (h : startsWithDigit s = true) :
    pyMatchUserName s = false := by
  cases hsd : s.data with
  | nil => simp [startsWithDigit, hsd] at h
  | cons a t =>
    simp only [startsWithDigit, hsd, decide_eq_true_eq] at h
    simp only [pyMatchUserName, hsd, digit_not_classFirst h, Bool.false_and]

theorem pyMatchUserName_false_of_long (s : String) (hlen : 32 < s.length)
    (hnl : s.length ≠ 33 ∨ s.data.getLast? ≠ some '\n') :
    pyMatchUserName s = false := by
  cases hsd : s.data with
  | nil =>
    have : s.length = 0 := by simp [String.length, hsd]
    omega
  | cons a t =>
    by_contra hmatch
    rw [Bool.not_eq_false] at hmatch
    simp only [pyMatchUserName, hsd, Bool.and_eq_true] at hmatch
    obtain ⟨h1, h2⟩ := hmatch
    have hslen : s.length = t.length + 1 := by simp [String.length, hsd]
    rcases pyRunMatch_length classRestChar t 31 h2 with h3 | ⟨pre, h4, h5⟩
    · omega
    · have hlen33 : s.length = pre.length + 2 := by
        rw [hslen, h4]
        simp
      have hlast : s.data.getLast? = some '\n' := by
        rw [hsd, h4, show a :: (pre ++ ['\n']) = (a :: pre) ++ ['\n'] from rfl]
        exact List.getLast?_concat _
      rcases hnl with h6 | h6
      · omega
      · exact h6 hlast

theorem validateName_user_ok (s : String) (h : pyMatchUserName s = true) :
    validateName s "user" = .ok () := by
  have ht : toLowerStr "user" = "user" := by decide
  simp [validateName, ht, h]

theorem validateName_user_err (s : String) (h : pyMatchUserName s = false) :
    validateName s "user" = .error (.invalidNameError (invalidPosixNameMsg "user" s)) := by
  have ht : toLowerStr "user" = "user" := by decide
  simp [validateName, ht, h]

theorem pyMatch_of_spec (s : String) (h : specUserNamePattern s = true) :
    pyMatchUserName s = true := by
  cases hsd : s.data with
  | nil => simp [specUserNamePattern, hsd] at h
  | cons a t =>
    simp only [specUserNamePattern, hsd, Bool.and_eq_true, decide_eq_true_eq] at h
    obtain ⟨⟨h1, h2⟩, h3⟩ := h
    simp only [pyMatchUserName, hsd, h1, Bool.true_and]
    exact pyRunMatch_of_all classRestChar t 31 (List.all_eq_true.mp h2) h3

/-- C8 (as amended): every string matching the plain anchored pattern
`^[a-z_][a-z0-9_-]{0,31}$` passes the username validation of create_user;
strings containing an uppercase ASCII letter or starting with a digit are
rejected with `InvalidNameError` before any side effect (world unchanged,
empty trace); strings longer than 32 characters are likewise rejected,
except for 33-character strings ending in a newline whose head matches the
pattern, which Python `re.match` accepts because `$` also matches just
before a trailing newline. -/
theorem create_user_name_validation (env : Env) (m : MState) (s : String)
    (shell : Bool) (gs : Option (List String)) (ch : Bool)
    (hinit : m.sm.data.initialized = true) :
    (specUserNamePattern s = true → validateName s "user" = .ok ()) ∧
    (hasUpperAscii s = true →
      createUser env m s shell gs ch =
        (.error (.invalidNameError (invalidPosixNameMsg "user" s)), m, [])) ∧
    (startsWithDigit s = true →
      createUser env m s shell gs ch =
        (.error (.invalidNameError (invalidPosixNameMsg "user" s)), m, [])) ∧
    (32 < s.length → (s.length ≠ 33 ∨ s.data.getLast? ≠ some '\n') →
      createUser env m s shell gs ch =
        (.error (.invalidNameError (invalidPosixNameMsg "user" s)), m, [])) := by
  refine ⟨fun h => validateName_user_ok s (pyMatch_of_spec s h), fun h => ?_, fun h => ?_, fun h1 h2 => ?_⟩
  · have hv := validateName_user_err s (pyMatchUserName_false_of_upper s h)
    simp [createUser, hinit, hv]
  · have hv := validateName_user_err s (pyMatchUserName_false_of_digit s h)
    simp [createUser, hinit, hv]
  · have hv := validateName_user_err s (pyMatchUserName_false_of_long s h1 h2)
    simp [createUser, hinit, hv]

/-- The 33-character string of 32 letters a followed by a newline. -/
def c8Name : String := "aaaaaaaaaaaaaaaaaaaaaaaaaaaaaaaa\n"

/-- A 33-character all-letter name. -/
def c8LongName : String := "aaaaaaaaaaaaaaaaaaaaaaaaaaaaaaaaa"

/-- C8 counterexample: the claim says any string longer than 32 characters
is rejected by create_user with `InvalidNameError`.  The 33-character name
of 32 letters a followed by a newline passes `re.match` (Python `$` matches
before a trailing final newline), so create_user proceeds and succeeds,
performing side effects. -/
theorem create_user_accepts_33_char_name :
    c8Name.length = 33 ∧
    validateName c8Name "user" = .ok () ∧
    (createUser mvEnvOk c7M c8Name false none false).1.isOk = true ∧
    (createUser mvEnvOk c7M c8Name false none false).2.2 ≠ [] := by
  decide

theorem create_user_name_validation_witness :
    (validateName "alice" "user" = .ok ()) ∧
    (createUser mvEnvOk c7M "Alice" false none false =
      (.error (.invalidNameError (invalidPosixNameMsg "user" "Alice")), c7M, [])) ∧
    (createUser mvEnvOk c7M "9lice" false none false =
      (.error (.invalidNameError (invalidPosixNameMsg "user" "9lice")), c7M, [])) ∧
    (createUser mvEnvOk c7M c8LongName false none false =
      (.error (.invalidNameError (invalidPosixNameMsg "user" c8LongName)), c7M, [])) :=
  ⟨(create_user_name_validation mvEnvOk c7M "alice" false none false (by decide)).1 (by decide),
   (create_user_name_validation mvEnvOk c7M "Alice" false none false (by decide)).2.1 (by decide),
   (create_user_name_validation mvEnvOk c7M "9lice" false none false (by decide)).2.2.1 (by decide),
   (create_user_name_validation mvEnvOk c7M c8LongName false none false (by decide)).2.2.2
     (by decide) (by decide)⟩

/-- C5 counterexample: modify_share("docs", name="newdocs", permissions="99")
on a world where the rename succeeds and the permissions are invalid.  The
state store is restored and the error re-raised, but the dataset rename is
NOT reversed: the dataset stays at its new name and the trace holds exactly
the one rename command, no rename-back. -/
theorem modify_share_rename_not_reversed :
    (modifyShare mvEnvOk c6M "docs" { name := some "newdocs", permissions := some "99" }).1 =
      .error (.invalidNameError "Permissions 99 are invalid.") ∧
    (modifyShare mvEnvOk c6M "docs" { name := some "newdocs", permissions := some "99" }).2.1.sm.data =
      c6M.sm.data ∧
    (modifyShare mvEnvOk c6M "docs" { name := some "newdocs", permissions := some "99" }).2.1.sm.persisted =
      c6M.sm.persisted ∧
    dsExists (modifyShare mvEnvOk c6M "docs" { name := some "newdocs", permissions := some "99" }).2.1.sys
      "tank/shares/newdocs" = true ∧
    dsExists (modifyShare mvEnvOk c6M "docs" { name := some "newdocs", permissions := some "99" }).2.1.sys
      "tank/shares/docs" = false ∧
    (modifyShare mvEnvOk c6M "docs" { name := some "newdocs", permissions := some "99" }).2.2 =
      [Ev.zfsRename "tank/shares/docs" "tank/shares/newdocs"] := by
  decide

/-- C5 (as amended): when modify_share renames the dataset and a later step
fails (here: an invalid permissions argument), the state store data and the
persisted file are restored to the pre-call snapshot and the original error
is re-raised, but the dataset rename is not reversed: the final ZFS world is
exactly the post-rename world and the trace holds only the rename command
(no rename-back, no other side effect). -/
theorem modify_share_restore_without_rename_back
    (env : Env) (m : MState) (shareName nm p : String) (info : ShareRec)
    (hinit : m.sm.data.initialized = true)
    (hlookup : m.sm.data.shares.lookup shareName = some info)
    (hperm : permsOk p = false)
    (hold : dsExists m.sys info.dataset.name = true)
    (hnew : dsExists m.sys (msNewDsName info.dataset.name nm) = false)
    (hcmd : env.cmdOk (Ev.zfsRename info.dataset.name (msNewDsName info.dataset.name nm)) = true) :
    modifyShare env m shareName { name := some nm, permissions := some p } =
      (.error (.invalidNameError ("Permissions " ++ p ++ " are invalid.")),
        { sys := (zfsRenameDataset env m.sys info.dataset.name
            (msNewDsName info.dataset.name nm)).2.1,
          sm := { data := m.sm.data, persisted := m.sm.data } },
        [Ev.zfsRename info.dataset.name (msNewDsName info.dataset.name nm)]) := by
  simp only [modifyShare, hinit, Bool.not_true, if_false, hlookup]
  simp [Bind.bind, Except.bind, msPoolStep, msRenameStep, msQuotaStep, msSystemStep,
    zfsRenameDataset, hold, hnew, hcmd, hperm]

theorem modify_share_restore_without_rename_back_witness :
    modifyShare mvEnvOk c6M "docs" { name := some "newdocs", permissions := some "99" } =
      (.error (.invalidNameError ("Permissions " ++ "99" ++ " are invalid.")),
        { sys := (zfsRenameDataset mvEnvOk c6M.sys c6Share.dataset.name
            (msNewDsName c6Share.dataset.name "newdocs")).2.1,
          sm := { data := c6M.sm.data, persisted := c6M.sm.data } },
        [Ev.zfsRename c6Share.dataset.name (msNewDsName c6Share.dataset.name "newdocs")]) :=
  modify_share_restore_without_rename_back mvEnvOk c6M "docs" "newdocs" "99" c6Share
    (by decide) (by decide) (by decide) (by decide) (by decide) (by decide)

theorem dsUnder_refl (a : String) : dsUnder a a = true := by
  simp [dsUnder]

theorem setAssoc_fresh {α : Type} (l : List (String × α)) (k : String) (v : α)
    (h : ∀ p ∈ l, p.1 ≠ k) : setAssoc l k v = l ++ [(k, v)] := by
  induction l with
  | nil => rfl
  | cons a t ih =>
    have ha : a.1 ≠ k := h a (by simp)
    cases a with
    | mk a1 a2 =>
      simp only [setAssoc, if_neg ha, List.cons_append, List.cons.injEq, true_and]
      exact ih (fun p hp => h p (by simp [hp]))

theorem createUserGroups_unknown (env : Env) (store : StoreData) (u : String)
    (hok : ∀ e, env.cmdOk e = true) (g : String) (hg : store.groups.lookup g = none) :
    ∀ (pre : List String) (post : List String),
      (∀ k ∈ pre, (store.groups.lookup k).isSome = true) →
      ∀ s : Sys, ∃ ext tr,
        createUserGroups env store u (pre ++ g :: post) s =
          (.error (.stateItemNotFoundError "group" g),
            { s with membership := ext ++ s.membership }, tr) ∧
        ∀ pr ∈ ext, pr.1 = u := by
  intro pre
  induction pre with
  | nil =>
    intro post _ s
    refine ⟨[], [], ?_, by simp⟩
    simp [createUserGroups, hg]
  | cons k pre' ih =>
    intro post hpre s
    have hk : (store.groups.lookup k).isSome = true := hpre k (by simp)
    obtain ⟨rec, hrec⟩ := Option.isSome_iff_exists.mp hk
    obtain ⟨ext, tr, heq, hext⟩ :=
      ih post (fun x hx => hpre x (by simp [hx]))
        { s with membership :=
            if s.membership.contains (u, k) then s.membership else (u, k) :: s.membership }
    by_cases hc : s.membership.contains (u, k)
    · refine ⟨ext, Ev.usermodAddToGroup u k :: tr, ?_, hext⟩
      rw [hc] at heq
      simp only [if_true] at heq
      simp only [List.cons_append, createUserGroups, hrec, Option.isSome_some, if_true,
        addUserToGroup, hok, hc, if_true, List.append_eq]
      rw [heq]
      simp
    · refine ⟨ext ++ [(u, k)], Ev.usermodAddToGroup u k :: tr, ?_, ?_⟩
      · rw [Bool.not_eq_true] at hc
        rw [hc] at heq
        simp only [Bool.false_eq_true, if_false] at heq
        simp only [List.cons_append, createUserGroups, hrec, Option.isSome_some, if_true,
          addUserToGroup, hok, hc, Bool.false_eq_true, if_false, List.append_eq]
        rw [heq]
        simp [List.append_assoc]
      · intro pr hpr
        rcases List.mem_append.mp hpr with h1 | h2
        · exact hext pr h1
        · simp at h2
          rw [h2]

theorem validateName_group_ok (s : String) (h : pyMatchUserName s = true) :
    validateName s "group" = .ok () := by
  have ht : toLowerStr "group" = "group" := by decide
  simp [validateName, ht, h]

theorem createGroupMembers_unknown (env : Env) (store : StoreData) (gname : String)
    (hok : ∀ e, env.cmdOk e = true) (mem : String) (hmem : store.users.lookup mem = none) :
    ∀ (preM : List String) (postM : List String),
      (∀ k ∈ preM, (store.users.lookup k).isSome = true) →
      ∀ s : Sys, ∃ ext tr,
        createGroupMembers env store gname (preM ++ mem :: postM) s =
          (.error (.stateItemNotFoundError "user" mem),
            { s with membership := ext ++ s.membership }, tr) ∧
        ∀ pr ∈ ext, pr.2 = gname := by
  intro preM
  induction preM with
  | nil =>
    intro postM _ s
    refine ⟨[], [], ?_, by simp⟩
    simp [createGroupMembers, hmem]
  | cons k preM2 ih =>
    intro postM hpreM s
    have hk : (store.users.lookup k).isSome = true := hpreM k (by simp)
    obtain ⟨rec, hrec⟩ := Option.isSome_iff_exists.mp hk
    obtain ⟨ext, tr, heq, hext⟩ :=
      ih postM (fun x hx => hpreM x (by simp [hx]))
        { s with membership :=
            if s.membership.contains (k, gname) then s.membership else (k, gname) :: s.membership }
    by_cases hc : s.membership.contains (k, gname)
    · refine ⟨ext, Ev.usermodAddToGroup k gname :: tr, ?_, hext⟩
      rw [hc] at heq
      simp only [if_true] at heq
      simp only [List.cons_append, createGroupMembers, hrec, Option.isSome_some, if_true,
        addUserToGroup, hok, hc, if_true, List.append_eq]
      rw [heq]
      simp
    · refine ⟨ext ++ [(k, gname)], Ev.usermodAddToGroup k gname :: tr, ?_, ?_⟩
      · rw [Bool.not_eq_true] at hc
        rw [hc] at heq
        simp only [Bool.false_eq_true, if_false] at heq
        simp only [List.cons_append, createGroupMembers, hrec, Option.isSome_some, if_true,
          addUserToGroup, hok, hc, Bool.false_eq_true, if_false, List.append_eq]
        rw [heq]
        simp [List.append_assoc]
      · intro pr hpr
        rcases List.mem_append.mp hpr with h1 | h2
        · exact hext pr h1
        · simp at h2
          rw [h2]

theorem isSuffix_cons {α : Type} (a : α) {l2 l3 : List α} (h : List.IsSuffix l3 l2) :
    List.IsSuffix l3 (a :: l2) := by
  obtain ⟨t, ht⟩ := h
  exact ⟨a :: t, by rw [← ht]; rfl⟩

theorem isSuffix_append_left {α : Type} (l : List α) {l2 l3 : List α}
    (h : List.IsSuffix l3 l2) : List.IsSuffix l3 (l ++ l2) := by
  obtain ⟨t, ht⟩ := h
  exact ⟨l ++ t, by rw [← ht, List.append_assoc]⟩

theorem ite_ok_triple {ε σ τ : Type} (c : Prop) [Decidable c] (s : σ) (t e : τ) :
    (if c then ((Except.ok () : Except ε Unit), s, t) else (.ok (), s, e)) =
      (.ok (), s, if c then t else e) := by
  split <;> rfl

theorem createUser_rollback_aux
    (env : Env) (m : MState) (u g : String) (shell ch : Bool) (pre post : List String)
    (hok : ∀ e, env.cmdOk e = true)
    (hper : m.sm.persisted = m.sm.data)
    (hinit : m.sm.data.initialized = true)
    (hval : pyMatchUserName u = true)
    (hu1 : (m.sm.data.users.lookup u).isSome = false)
    (hu2 : m.sys.osUsers.contains u = false)
    (hu3 : m.sys.sambaUsers.contains u = false)
    (hu4 : ∀ pr ∈ m.sys.membership, pr.1 ≠ u)
    (hds1 : insertMissingPrefixes m.sys.datasets (userHomeDs m.sm.data u) =
      userHomeDs m.sm.data u :: m.sys.datasets)
    (hds2 : ∀ d ∈ m.sys.datasets, dsUnder (userHomeDs m.sm.data u) d = false)
    (hds3 : ∀ q ∈ m.sys.quotas, dsUnder (userHomeDs m.sm.data u) q.1 = false)
    (hds4 : ∀ sn ∈ m.sys.snapshots, dsUnder (userHomeDs m.sm.data u) (snapDataset sn) = false)
    (hpre : ∀ k ∈ pre, (m.sm.data.groups.lookup k).isSome = true)
    (hg : m.sm.data.groups.lookup g = none) :
    ∃ tr, createUser env m u shell (some (pre ++ g :: post)) ch =
        (.error (.stateItemNotFoundError "group" g), m, tr) ∧
      List.IsSuffix
        (if ch then [Ev.smbpasswdDelete u, Ev.userdel u, Ev.zfsDestroyR (userHomeDs m.sm.data u)]
         else [Ev.smbpasswdDelete u, Ev.userdel u]) tr := by
  have hloop := createUserGroups_unknown env m.sm.data u hok g hg pre post hpre
  have hvn := validateName_user_ok u hval
  have hm1 : m.sys.membership.contains (u, "smb_users") = false := by
    by_contra hcon
    rw [Bool.not_eq_false] at hcon
    have hmem2 : (u, "smb_users") ∈ m.sys.membership := by simpa using hcon
    exact hu4 _ hmem2 rfl
  cases ch with
  | false =>
    obtain ⟨ext, trL, heqL, hext⟩ := hloop
      { osUsers := u :: m.sys.osUsers
        osGroups := m.sys.osGroups
        sambaUsers := u :: m.sys.sambaUsers
        membership := (u, "smb_users") :: m.sys.membership
        datasets := m.sys.datasets
        snapshots := m.sys.snapshots
        quotas := m.sys.quotas }
    have hcs1 : (u :: m.sys.sambaUsers).contains u = true := by simp
    have hcs2 : (u :: m.sys.osUsers).contains u = true := by simp
    have hfilter : (ext ++ (u, "smb_users") :: m.sys.membership).filter
        (fun p => !(p.1 == u)) = m.sys.membership := by
      rw [List.filter_append]
      have h1 : ext.filter (fun p => !(p.1 == u)) = [] := by
        rw [List.filter_eq_nil_iff]
        intro p hp
        simp [hext p hp]
      have h2 : m.sys.membership.filter (fun p => !(p.1 == u)) = m.sys.membership :=
        List.filter_eq_self.mpr (fun p hp => by simp [hu4 p hp])
      rw [h1]
      simp [List.filter_cons, h2]
    have hsm : ({ data := m.sm.data, persisted := m.sm.data } : SM) = m.sm := by
      conv_rhs => rw [show m.sm = ({ data := m.sm.data, persisted := m.sm.persisted } : SM) from rfl]
      rw [hper]
    have hsys : ({ osUsers := m.sys.osUsers, osGroups := m.sys.osGroups, sambaUsers := m.sys.sambaUsers, membership := m.sys.membership, datasets := m.sys.datasets, snapshots := m.sys.snapshots, quotas := m.sys.quotas } : Sys) = m.sys := rfl
    have hmm : ({ sys := m.sys, sm := m.sm } : MState) = m := rfl
    refine ⟨?tr, ?he, ?hs⟩
    case he =>
      simp only [createUser, hinit, hvn, hu1, sysUserExists, hu2, createUserTx,
        Bool.not_true, Bool.false_eq_true, if_false, ite_self,
        addSystemUser, hok, if_true, ite_ok_triple, setSystemPassword,
        addSambaUser, hu3, addUserToGroup, hm1, Option.getD,
        heqL, txAbort, runRollbacks, runRbAct, deleteSambaUser, sambaUserExists,
        deleteSystemUser, zfsDestroyDataset, dsExists,
        hcs1, hcs2, List.erase_cons_head, hfilter, List.reverse_cons, List.reverse_nil,
        List.nil_append, List.append_nil, List.cons_append, List.append_assoc, hsm,
        hsys, hmm]
      exact rfl
    case hs =>
      repeat first
        | exact List.suffix_refl _
        | apply isSuffix_cons
        | apply isSuffix_append_left
  | true =>
    have hqk : ∀ p ∈ m.sys.quotas, p.1 ≠ userHomeDs m.sm.data u := by
      intro p hp hcon
      have h2 := hds3 p hp
      rw [hcon, dsUnder_refl] at h2
      exact absurd h2 (by decide)
    have hfd : (userHomeDs m.sm.data u :: m.sys.datasets).filter
        (fun x => !(dsUnder (userHomeDs m.sm.data u) x)) = m.sys.datasets := by
      simp only [List.filter_cons, dsUnder_refl, Bool.not_true, Bool.false_eq_true, if_false]
      exact List.filter_eq_self.mpr (fun d hd => by simp [hds2 d hd])
    have hfs : m.sys.snapshots.filter
        (fun x => !(dsUnder (userHomeDs m.sm.data u) (snapDataset x))) = m.sys.snapshots :=
      List.filter_eq_self.mpr (fun sn hsn => by simp [hds4 sn hsn])
    have hfq2 : m.sys.quotas.filter
        (fun p => !(dsUnder (userHomeDs m.sm.data u) p.1)) = m.sys.quotas :=
      List.filter_eq_self.mpr (fun p hp => by simp [hds3 p hp])
    have hcd : (userHomeDs m.sm.data u :: m.sys.datasets).contains
        (userHomeDs m.sm.data u) = true := by simp
    have hsm : ({ data := m.sm.data, persisted := m.sm.data } : SM) = m.sm := by
      conv_rhs => rw [show m.sm = ({ data := m.sm.data, persisted := m.sm.persisted } : SM) from rfl]
      rw [hper]
    have hsys : ({ osUsers := m.sys.osUsers, osGroups := m.sys.osGroups, sambaUsers := m.sys.sambaUsers, membership := m.sys.membership, datasets := m.sys.datasets, snapshots := m.sys.snapshots, quotas := m.sys.quotas } : Sys) = m.sys := rfl
    have hmm : ({ sys := m.sys, sm := m.sm } : MState) = m := rfl
    have hcs1 : (u :: m.sys.sambaUsers).contains u = true := by simp
    have hcs2 : (u :: m.sys.osUsers).contains u = true := by simp
    by_cases hdq : pyTruthy m.sm.data.defaultHomeQuota
    case pos =>
      have hfq : (setAssoc m.sys.quotas (userHomeDs m.sm.data u)
          (optStr m.sm.data.defaultHomeQuota)).filter
          (fun p => !(dsUnder (userHomeDs m.sm.data u) p.1)) = m.sys.quotas := by
        rw [setAssoc_fresh _ _ _ hqk, List.filter_append, hfq2]
        simp [dsUnder_refl]
      obtain ⟨ext, trL, heqL, hext⟩ := hloop
        { osUsers := u :: m.sys.osUsers
          osGroups := m.sys.osGroups
          sambaUsers := u :: m.sys.sambaUsers
          membership := (u, "smb_users") :: m.sys.membership
          datasets := userHomeDs m.sm.data u :: m.sys.datasets
          snapshots := m.sys.snapshots
          quotas := setAssoc m.sys.quotas (userHomeDs m.sm.data u)
            (optStr m.sm.data.defaultHomeQuota) }
      have hfilter : (ext ++ (u, "smb_users") :: m.sys.membership).filter
          (fun p => !(p.1 == u)) = m.sys.membership := by
        rw [List.filter_append]
        have h1 : ext.filter (fun p => !(p.1 == u)) = [] := by
          rw [List.filter_eq_nil_iff]
          intro p hp
          simp [hext p hp]
        have h2 : m.sys.membership.filter (fun p => !(p.1 == u)) = m.sys.membership :=
          List.filter_eq_self.mpr (fun p hp => by simp [hu4 p hp])
        rw [h1]
        simp [List.filter_cons, h2]
      refine ⟨?tr2, ?he2, ?hs2⟩
      case he2 =>
        simp only [createUser, hinit, hvn, hu1, sysUserExists, hu2, createUserTx,
          Bool.not_true, Bool.false_eq_true, if_false, ite_self,
          zfsCreateDataset, hok, if_true, hds1, hdq, zfsSetQuota, dsExists, hcd,
          addSystemUser, ite_ok_triple, setSystemPassword, addSambaUser, hu3,
          addUserToGroup, hm1, Option.getD, heqL, txAbort, runRollbacks, runRbAct,
          deleteSambaUser, sambaUserExists, deleteSystemUser, zfsDestroyDataset,
          destroyRecursive, hcs1, hcs2, List.erase_cons_head, hfilter, hfd, hfs, hfq,
          List.reverse_cons, List.reverse_nil, List.nil_append, List.append_nil,
          List.cons_append, List.append_assoc, hsm, hsys, hmm]
        exact rfl
      case hs2 =>
        repeat first
          | exact List.suffix_refl _
          | apply isSuffix_cons
          | apply isSuffix_append_left
    case neg =>
      rw [Bool.not_eq_true] at hdq
      obtain ⟨ext, trL, heqL, hext⟩ := hloop
        { osUsers := u :: m.sys.osUsers
          osGroups := m.sys.osGroups
          sambaUsers := u :: m.sys.sambaUsers
          membership := (u, "smb_users") :: m.sys.membership
          datasets := userHomeDs m.sm.data u :: m.sys.datasets
          snapshots := m.sys.snapshots
          quotas := m.sys.quotas }
      have hfilter : (ext ++ (u, "smb_users") :: m.sys.membership).filter
          (fun p => !(p.1 == u)) = m.sys.membership := by
        rw [List.filter_append]
        have h1 : ext.filter (fun p => !(p.1 == u)) = [] := by
          rw [List.filter_eq_nil_iff]
          intro p hp
          simp [hext p hp]
        have h2 : m.sys.membership.filter (fun p => !(p.1 == u)) = m.sys.membership :=
          List.filter_eq_self.mpr (fun p hp => by simp [hu4 p hp])
        rw [h1]
        simp [List.filter_cons, h2]
      refine ⟨?tr3, ?he3, ?hs3⟩
      case he3 =>
        simp only [createUser, hinit, hvn, hu1, sysUserExists, hu2, createUserTx,
          Bool.not_true, Bool.false_eq_true, if_false, ite_self,
          zfsCreateDataset, hok, if_true, hds1, hdq, zfsSetQuota, dsExists, hcd,
          addSystemUser, ite_ok_triple, setSystemPassword, addSambaUser, hu3,
          addUserToGroup, hm1, Option.getD, heqL, txAbort, runRollbacks, runRbAct,
          deleteSambaUser, sambaUserExists, deleteSystemUser, zfsDestroyDataset,
          destroyRecursive, hcs1, hcs2, List.erase_cons_head, hfilter, hfd, hfs, hfq2,
          List.reverse_cons, List.reverse_nil, List.nil_append, List.append_nil,
          List.cons_append, List.append_assoc, hsm, hsys, hmm]
        exact rfl
      case hs3 =>
        repeat first
          | exact List.suffix_refl _
          | apply isSuffix_cons
          | apply isSuffix_append_left

theorem createGroup_rollback_aux
    (env : Env) (m : MState) (gname desc mem : String) (preM postM : List String)
    (hok : ∀ e, env.cmdOk e = true)
    (hper : m.sm.persisted = m.sm.data)
    (hinit : m.sm.data.initialized = true)
    (hval : pyMatchUserName gname = true)
    (hg1 : (m.sm.data.groups.lookup gname).isSome = false)
    (hg2 : m.sys.osGroups.contains gname = false)
    (hg3 : ∀ pr ∈ m.sys.membership, pr.2 ≠ gname)
    (hpreM : ∀ k ∈ preM, (m.sm.data.users.lookup k).isSome = true)
    (hmem : m.sm.data.users.lookup mem = none) :
    ∃ tr, createGroup env m gname desc (some (preM ++ mem :: postM)) =
        (.error (.stateItemNotFoundError "user" mem), m, tr) ∧
      List.IsSuffix [Ev.groupdel gname] tr := by
  have hvn := validateName_group_ok gname hval
  obtain ⟨ext, trL, heqL, hext⟩ :=
    createGroupMembers_unknown env m.sm.data gname hok mem hmem preM postM hpreM
      { osUsers := m.sys.osUsers
        osGroups := gname :: m.sys.osGroups
        sambaUsers := m.sys.sambaUsers
        membership := m.sys.membership
        datasets := m.sys.datasets
        snapshots := m.sys.snapshots
        quotas := m.sys.quotas }
  have hcg : (gname :: m.sys.osGroups).contains gname = true := by simp
  have hfilter : (ext ++ m.sys.membership).filter
      (fun p => !(p.2 == gname)) = m.sys.membership := by
    rw [List.filter_append]
    have h1 : ext.filter (fun p => !(p.2 == gname)) = [] := by
      rw [List.filter_eq_nil_iff]
      intro p hp
      simp [hext p hp]
    have h2 : m.sys.membership.filter (fun p => !(p.2 == gname)) = m.sys.membership :=
      List.filter_eq_self.mpr (fun p hp => by simp [hg3 p hp])
    rw [h1, h2, List.nil_append]
  have hsm : ({ data := m.sm.data, persisted := m.sm.data } : SM) = m.sm := by
    conv_rhs => rw [show m.sm = ({ data := m.sm.data, persisted := m.sm.persisted } : SM) from rfl]
    rw [hper]
  have hsys : ({ osUsers := m.sys.osUsers, osGroups := m.sys.osGroups, sambaUsers := m.sys.sambaUsers, membership := m.sys.membership, datasets := m.sys.datasets, snapshots := m.sys.snapshots, quotas := m.sys.quotas } : Sys) = m.sys := rfl
  have hmm : ({ sys := m.sys, sm := m.sm } : MState) = m := rfl
  refine ⟨?tr, ?he, ?hs⟩
  case he =>
    simp only [createGroup, hinit, hvn, hg1, sysGroupExists, hg2,
      Bool.not_true, Bool.false_eq_true, if_false, ite_self,
      addSystemGroup, hok, if_true, Option.getD,
      heqL, txAbort, runRollbacks, runRbAct, deleteSystemGroup,
      hcg, List.erase_cons_head, hfilter, List.reverse_cons, List.reverse_nil,
      List.nil_append, List.append_nil, List.cons_append, List.append_assoc, hsm,
      hsys, hmm]
    exact rfl
  case hs =>
    repeat first
      | exact List.suffix_refl _
      | apply isSuffix_cons
      | apply isSuffix_append_left

/-- Store of the C2 sample world: initialized, one user alice, the mandatory
smb_users group plus a staff group, and a default home quota. -/
def c2Store : StoreData :=
  { initialized := true, primaryPool := some "tank", secondaryPools := [],
    serverName := some "srv", workgroup := some "WG", macosOptimized := false,
    defaultHomeQuota := some "10G",
    users := [("alice", { shellAccess := true, groups := [], created := "t0", dataset := none })],
    groups := [("smb_users", { description := "Samba Users Group", members := [], created := "t0" }),
               ("staff", { description := "Staff", members := [], created := "t0" })],
    shares := [] }

/-- C2 sample world: alice exists on the OS and in Samba, the pools and the
homes dataset exist, nothing lives under tank/homes/bob. -/
def c2M : MState :=
  { sys :=
      { osUsers := ["alice"]
        osGroups := ["smb_users", "staff"]
        sambaUsers := ["alice"]
        membership := [("alice", "smb_users")]
        datasets := ["tank", "tank/homes"]
        snapshots := []
        quotas := [] }
    sm := { data := c2Store, persisted := c2Store } }

/-- C2: when a step after the transaction has begun fails — an unknown group
in the `groups` list of create_user, or an unknown member in create_group —
the call returns exactly the original stateItemNotFoundError, the whole world
(State Store in memory and on disk, OS accounts and group memberships, Samba
credentials, ZFS datasets, snapshots and quotas) is restored to exactly the
pre-call state, and the rollback commands registered so far (samba credential
removal, account removal, home-dataset destroy for create_user; group removal
for create_group) run in reverse registration order at the end of the command
trace. -/
theorem create_user_group_rollback_restores_state
    (env : Env) (m : MState)
    (hok : ∀ e, env.cmdOk e = true)
    (hper : m.sm.persisted = m.sm.data)
    (hinit : m.sm.data.initialized = true) :
    (∀ (u g : String) (shell ch : Bool) (pre post : List String),
      pyMatchUserName u = true →
      (m.sm.data.users.lookup u).isSome = false →
      m.sys.osUsers.contains u = false →
      m.sys.sambaUsers.contains u = false →
      (∀ pr ∈ m.sys.membership, pr.1 ≠ u) →
      insertMissingPrefixes m.sys.datasets (userHomeDs m.sm.data u) =
        userHomeDs m.sm.data u :: m.sys.datasets →
      (∀ d ∈ m.sys.datasets, dsUnder (userHomeDs m.sm.data u) d = false) →
      (∀ q ∈ m.sys.quotas, dsUnder (userHomeDs m.sm.data u) q.1 = false) →
      (∀ sn ∈ m.sys.snapshots, dsUnder (userHomeDs m.sm.data u) (snapDataset sn) = false) →
      (∀ k ∈ pre, (m.sm.data.groups.lookup k).isSome = true) →
      m.sm.data.groups.lookup g = none →
      ∃ tr, createUser env m u shell (some (pre ++ g :: post)) ch =
          (.error (.stateItemNotFoundError "group" g), m, tr) ∧
        List.IsSuffix
          (if ch then [Ev.smbpasswdDelete u, Ev.userdel u, Ev.zfsDestroyR (userHomeDs m.sm.data u)]
           else [Ev.smbpasswdDelete u, Ev.userdel u]) tr) ∧
    (∀ (gname desc mem : String) (preM postM : List String),
      pyMatchUserName gname = true →
      (m.sm.data.groups.lookup gname).isSome = false →
      m.sys.osGroups.contains gname = false →
      (∀ pr ∈ m.sys.membership, pr.2 ≠ gname) →
      (∀ k ∈ preM, (m.sm.data.users.lookup k).isSome = true) →
      m.sm.data.users.lookup mem = none →
      ∃ tr, createGroup env m gname desc (some (preM ++ mem :: postM)) =
          (.error (.stateItemNotFoundError "user" mem), m, tr) ∧
        List.IsSuffix [Ev.groupdel gname] tr) := by
  constructor
  · intro u g shell ch pre post hval hu1 hu2 hu3 hu4 hds1 hds2 hds3 hds4 hpre hg
    exact createUser_rollback_aux env m u g shell ch pre post hok hper hinit hval
      hu1 hu2 hu3 hu4 hds1 hds2 hds3 hds4 hpre hg
  · intro gname desc mem preM postM hval hg1 hg2 hg3 hpreM hmem
    exact createGroup_rollback_aux env m gname desc mem preM postM hok hper hinit hval
      hg1 hg2 hg3 hpreM hmem

theorem create_user_group_rollback_restores_state_witness :
    c2M.sm.data.initialized = true ∧
    c2M.sm.data.groups.lookup "ghost" = none ∧
    c2M.sm.data.users.lookup "ghost" = none ∧
    (∃ tr, createUser mvEnvOk c2M "bob" false (some (["staff"] ++ "ghost" :: [])) true =
        (.error (.stateItemNotFoundError "group" "ghost"), c2M, tr) ∧
      List.IsSuffix
        (if true then [Ev.smbpasswdDelete "bob", Ev.userdel "bob",
            Ev.zfsDestroyR (userHomeDs c2M.sm.data "bob")]
         else [Ev.smbpasswdDelete "bob", Ev.userdel "bob"]) tr) ∧
    (∃ tr, createGroup mvEnvOk c2M "devs" "" (some (["alice"] ++ "ghost" :: [])) =
        (.error (.stateItemNotFoundError "user" "ghost"), c2M, tr) ∧
      List.IsSuffix [Ev.groupdel "devs"] tr) := by
  refine ⟨by decide, by decide, by decide, ?_, ?_⟩
  · exact (create_user_group_rollback_restores_state mvEnvOk c2M (fun e => rfl) rfl
      (by decide)).1 "bob" "ghost" false true ["staff"] [] (by decide) (by decide)
      (by decide) (by decide) (by decide) (by decide) (by decide) (by decide)
      (by decide) (by decide) (by decide)
  · exact (create_user_group_rollback_restores_state mvEnvOk c2M (fun e => rfl) rfl
      (by decide)).2 "devs" "" "ghost" ["alice"] [] (by decide) (by decide)
      (by decide) (by decide) (by decide) (by decide)

theorem msuSimpleBlock_shares (a : ModifySetupArgs) (sm : SM) :
    (msuSimpleBlock a sm).1.data.shares = sm.data.shares := by
  rcases h1 : a.serverName with _ | v1 <;>
    rcases h2 : a.workgroup with _ | v2 <;>
      rcases h3 : a.macosOptimized with _ | v3 <;>
        rcases h4 : a.defaultHomeQuota with _ | v4 <;>
          simp [msuSimpleBlock, h1, h2, h3, h4, smSave]

/-- C9: secondary-pool removal in modify_setup respects the pool-membership
invariant.  First conjunct: whenever a call whose arguments remove at least
one secondary pool succeeds, no share record of the resulting State Store
references any of the removed pools (the removal block rejects the call
otherwise, and the later blocks never change a share's pool).  Second
conjunct: with no primary-pool change and no pools added, if some existing
share record targets a pool in the removal list, the call raises the
cannot-remove SmbZfsError naming that pool and share, removes nothing, and
leaves the whole world exactly as before the call. -/
theorem modify_setup_pool_removal_invariant (env : Env) (m : MState)
    (hper : m.sm.persisted = m.sm.data) :
    (∀ (a : ModifySetupArgs) (d : StoreData) (m2 : MState) (tr : List Ev),
      a.removeSecondaryPools.getD [] ≠ [] →
      modifySetup env m a = (.ok d, m2, tr) →
      ∀ pr ∈ m2.sm.data.shares,
        (a.removeSecondaryPools.getD []).contains pr.2.dataset.pool = false) ∧
    (∀ (a : ModifySetupArgs) (rp : List String) (pr : String × ShareRec),
      m.sm.data.initialized = true →
      a.primaryPool = none → a.addSecondaryPools = none →
      a.removeSecondaryPools = some rp → rp ≠ [] →
      m.sm.data.shares.find? (fun p => rp.contains p.2.dataset.pool) = some pr →
      modifySetup env m a =
        (.error (.smbZfsError ("Cannot remove pool " ++ pr.2.dataset.pool ++
          " as it is used by share " ++ pr.1 ++ ".")), m, [])) := by
  have hsm : ({ data := m.sm.data, persisted := m.sm.data } : SM) = m.sm := by
    conv_rhs => rw [show m.sm = ({ data := m.sm.data, persisted := m.sm.persisted } : SM) from rfl]
    rw [hper]
  have hmm : ({ sys := m.sys, sm := m.sm } : MState) = m := rfl
  constructor
  · intro a d m2 tr hne heq
    by_cases hinit : m.sm.data.initialized
    case neg =>
      rw [Bool.not_eq_true] at hinit
      simp [modifySetup, hinit] at heq
    case pos =>
      simp only [modifySetup, hinit, Bool.not_true, Bool.false_eq_true, if_false] at heq
      rcases hpb : msuPrimaryBlock env a.primaryPool m.sys m.sm with ⟨r1, s1, sm1, cfg1, t1⟩
      rw [hpb] at heq
      cases r1 with
      | error e => simp at heq
      | ok _ =>
        dsimp only at heq
        rcases hab : msuAddBlock env (a.addSecondaryPools.getD []) sm1 with e2 | sm2
        · rw [hab] at heq; simp at heq
        · rw [hab] at heq
          dsimp only at heq
          rcases hrb : msuRemoveBlock (a.removeSecondaryPools.getD []) sm2 with e3 | sm3
          · rw [hrb] at heq; simp at heq
          · rw [hrb] at heq
            dsimp only at heq
            simp only [msuRemoveBlock, if_neg hne] at hrb
            rcases hf : sm2.data.shares.find? (fun p => (a.removeSecondaryPools.getD []).contains p.2.dataset.pool) with _ | prF
            case some => rw [hf] at hrb; simp at hrb
            case none =>
            rw [hf] at hrb
            simp only [Except.ok.injEq] at hrb
            have hall : ∀ pr ∈ sm2.data.shares,
                (a.removeSecondaryPools.getD []).contains pr.2.dataset.pool = false := by
              intro pr hpr
              have h2 := List.find?_eq_none.mp hf pr hpr
              simpa using h2
            have hsh3 : sm3.data.shares = sm2.data.shares := by
              rw [← hrb]; simp [smSave]
            rcases hsb : msuSimpleBlock a sm3 with ⟨sm4, cfg2⟩
            rw [hsb] at heq
            dsimp only at heq
            have hsh4 : sm4.data.shares = sm2.data.shares := by
              have := msuSimpleBlock_shares a sm3
              rw [hsb] at this
              simpa [hsh3] using this
            cases hcfg : (cfg1 || cfg2) with
            | false =>
              rw [hcfg] at heq
              simp only [Bool.false_eq_true, if_false, Prod.mk.injEq, Except.ok.injEq] at heq
              obtain ⟨hd, hm2, htr⟩ := heq
              intro pr hpr
              rw [← hm2] at hpr
              simp only at hpr
              rw [hsh4] at hpr
              exact hall pr hpr
            | true =>
              rw [hcfg] at heq
              simp only [if_true] at heq
              rcases hcb : msuConfigBlock env s1 sm4 with ⟨r4, s2, sm5, t4⟩
              rw [hcb] at heq
              cases r4 with
              | error e => simp at heq
              | ok _ =>
                dsimp only at heq
                simp only [Prod.mk.injEq, Except.ok.injEq] at heq
                obtain ⟨hd, hm2, htr⟩ := heq
                have hsh5 : ∀ pr ∈ sm5.data.shares,
                    (a.removeSecondaryPools.getD []).contains pr.2.dataset.pool = false := by
                  by_cases hinit4 : sm4.data.initialized
                  case neg =>
                    rw [Bool.not_eq_true] at hinit4
                    simp [msuConfigBlock, listItemsShares, hinit4] at hcb
                  case pos =>
                    simp only [msuConfigBlock, listItemsShares, hinit4, Bool.not_true,
                      Bool.false_eq_true, if_false] at hcb
                    by_cases htp : env.cmdOk Ev.testparm
                    case neg =>
                      rw [Bool.not_eq_true] at htp
                      simp [testSambaConfig, htp] at hcb
                    case pos =>
                      by_cases hrl : env.cmdOk Ev.reloadSamba
                      case neg =>
                        rw [Bool.not_eq_true] at hrl
                        simp [testSambaConfig, htp, reloadSamba, hrl] at hcb
                      case pos =>
                        simp only [testSambaConfig, htp, reloadSamba, hrl, if_true,
                          Prod.mk.injEq] at hcb
                        obtain ⟨_, _, hsm5, _⟩ := hcb
                        intro pr hpr
                        rw [← hsm5] at hpr
                        simp only at hpr
                        obtain ⟨q, hq, hqe⟩ := List.mem_map.mp hpr
                        have hpool : pr.2.dataset.pool = q.2.dataset.pool := by
                          rw [← hqe]
                          rfl
                        rw [hpool]
                        exact hall q (by rw [← hsh4]; exact hq)
                intro pr hpr
                rw [← hm2] at hpr
                simp only at hpr
                exact hsh5 pr hpr
  · intro a rp pr hinit hp ha hr hne hfind
    simp only [modifySetup, hinit, Bool.not_true, Bool.false_eq_true, if_false,
      hp, ha, hr, msuPrimaryBlock, Option.getD, msuAddBlock, if_true,
      msuRemoveBlock, if_neg hne, hfind, hsm, hmm]

/-- Share record of the C9 sample world, living on the secondary pool extra. -/
def c9Share : ShareRec :=
  { dataset := { name := "extra/media", mountPoint := "/extra/media", quota := none, pool := "extra" },
    smbConfig := { comment := "", browseable := true, readOnly := false, validUsers := "alice" },
    system := { owner := "alice", group := "smb_users", permissions := "775" },
    created := "t0" }

/-- Store of the C9 sample world: two secondary pools, one share on extra. -/
def c9Store : StoreData :=
  { initialized := true, primaryPool := some "tank", secondaryPools := ["extra", "extra2"],
    serverName := some "srv", workgroup := some "WG", macosOptimized := false,
    defaultHomeQuota := none, users := [],
    groups := [("smb_users", { description := "Samba Users Group", members := [], created := "t0" })],
    shares := [("media", c9Share)] }

/-- C9 sample world. -/
def c9M : MState :=
  { sys :=
      { osUsers := []
        osGroups := ["smb_users"]
        sambaUsers := []
        membership := []
        datasets := ["tank", "extra", "extra/media"]
        snapshots := []
        quotas := [] }
    sm := { data := c9Store, persisted := c9Store } }

/-- Arguments removing the unused secondary pool extra2. -/
def c9ArgsOk : ModifySetupArgs := { removeSecondaryPools := some ["extra2"] }

/-- Arguments removing the pool extra that the media share still targets. -/
def c9ArgsBad : ModifySetupArgs := { removeSecondaryPools := some ["extra"] }

/-- Store after the successful removal of extra2. -/
def c9StoreAfter : StoreData := { c9Store with secondaryPools := ["extra"] }

/-- World after the successful removal of extra2. -/
def c9MAfter : MState :=
  { sys := c9M.sys, sm := { data := c9StoreAfter, persisted := c9StoreAfter } }

theorem modify_setup_pool_removal_invariant_witness :
    (c9ArgsOk.removeSecondaryPools.getD [] ≠ [] ∧
      modifySetup mvEnvOk c9M c9ArgsOk = (.ok c9StoreAfter, c9MAfter, []) ∧
      ∀ pr ∈ c9MAfter.sm.data.shares,
        (c9ArgsOk.removeSecondaryPools.getD []).contains pr.2.dataset.pool = false) ∧
    modifySetup mvEnvOk c9M c9ArgsBad =
      (.error (.smbZfsError ("Cannot remove pool " ++ ("media", c9Share).2.dataset.pool ++
        " as it is used by share " ++ ("media", c9Share).1 ++ ".")), c9M, []) := by
  refine ⟨⟨by decide, by decide, ?_⟩, ?_⟩
  · exact (modify_setup_pool_removal_invariant mvEnvOk c9M rfl).1 c9ArgsOk c9StoreAfter
      c9MAfter [] (by decide) (by decide)
  · exact (modify_setup_pool_removal_invariant mvEnvOk c9M rfl).2 c9ArgsBad ["extra"]
      ("media", c9Share) (by decide) rfl rfl rfl (by decide) (by decide)
